import Mathlib

/-!
Verification development for the Sentinel CCTV dashboard core.

The definitions below are a shallow embedding of the application source:
the data model (`types.ts`), the simulation tick engine and the manual
handlers of `App.tsx` (`executeDeleteNvr`, `handleReconnect`,
`handleAnalysisResult`, `handleSaveNvr`), the no-credentials fallback of
`geminiService.analyzeFrame`, and the backup/restore layer of
`databaseService.ts`.

Modelling conventions:
* JavaScript timestamps (`Date.now()`) are `Nat` parameters (`now`).
* `Math.random()` draws are parameters: each comparison against a fixed
  threshold becomes a `Bool` (the camera state that selects the threshold is
  known before the draw is used, so a boolean per comparison is an exact
  model), and the uniform NVR pick becomes an arbitrary `Nat` reduced
  modulo the list length.
* `generateId()` (a random string) is modelled by caller-supplied id
  generators `Nat → String` applied to successive counters, or by explicit
  id arguments for single records.  No code path inspects id values.
* React's functional state updates are strictly sequenced by the runtime,
  so each handler becomes a pure function `AppState → ... → AppState`.
-/

/-- `CameraType` from `types.ts`. -/
inductive CameraType
  | SIMULATED
  | WEBCAM
  | STATIC
deriving Repr, DecidableEq

/-- NVR status union `'ONLINE' | 'OFFLINE' | 'AUTH_FAILURE'` from `types.ts`. -/
inductive NvrStatus
  | ONLINE
  | OFFLINE
  | AUTH_FAILURE
deriving Repr, DecidableEq

/-- Alert severity union `'INFO' | 'WARNING' | 'CRITICAL'` from `types.ts`. -/
inductive Severity
  | INFO
  | WARNING
  | CRITICAL
deriving Repr, DecidableEq

/-- Threat level union `'LOW' | 'MEDIUM' | 'HIGH' | 'CRITICAL'` from `types.ts`. -/
inductive ThreatLevel
  | LOW
  | MEDIUM
  | HIGH
  | CRITICAL
deriving Repr, DecidableEq

/-- User role union from `types.ts`. -/
inductive Role
  | ADMIN
  | OPERATOR
  | VIEWER
deriving Repr, DecidableEq

/-- User status union from `types.ts`. -/
inductive UserStatus
  | ACTIVE
  | SUSPENDED
deriving Repr, DecidableEq

/-- `AnalysisResult` interface from `types.ts`. -/
structure AnalysisResult where
  timestamp : String
  summary : String
  personCount : Nat
  threatLevel : ThreatLevel
  detectedObjects : List String
  anomalies : List String
deriving Repr, DecidableEq

/-- `Camera` interface from `types.ts`. -/
structure Camera where
  id : String
  name : String
  location : String
  nvrId : String
  type : CameraType
  sourceUrl : Option String
  isOnline : Bool
  isRecording : Bool
  statusChangedAt : Nat
  lastAnalysis : Option AnalysisResult
  lastUpdate : Nat
deriving Repr, DecidableEq

/-- `NvrDevice` interface from `types.ts`. -/
structure NvrDevice where
  id : String
  name : String
  ip : String
  port : String
  username : String
  password : Option String
  protocol : String
  status : NvrStatus
  addedAt : Nat
deriving Repr, DecidableEq

/-- `FaultRecord` interface from `types.ts`; `timeOn = none` means the fault
is still open (camera still down). -/
structure FaultRecord where
  id : String
  cameraId : String
  cameraName : String
  location : String
  nvrId : String
  timeOff : Nat
  timeOn : Option Nat
  acknowledged : Bool
deriving Repr, DecidableEq

/-- `Alert` interface from `types.ts`; `cameraId = "SYSTEM"` is the sentinel
for infrastructure-wide alerts. -/
structure Alert where
  id : String
  cameraId : String
  cameraName : String
  timestamp : Nat
  message : String
  severity : Severity
  thumbnail : Option String
deriving Repr, DecidableEq

/-- `User` interface from `types.ts`. -/
structure User where
  id : String
  name : String
  email : String
  role : Role
  lastActive : Nat
  status : UserStatus
deriving Repr, DecidableEq

/-- The application state held by `App.tsx`: the five entity collections
plus the pinned/live-view membership list `liveCameraIds`. -/
structure AppState where
  cameras : List Camera
  nvrs : List NvrDevice
  users : List User
  faults : List FaultRecord
  alerts : List Alert
  liveCameraIds : List String
deriving Repr, DecidableEq

/-- The ad hoc transition-record shape
`{ type: 'REPAIR' | 'FAILURE' | 'NVR_FAILURE', camera?, nvrId?, message? }`
built by the simulation tick in `App.tsx`. -/
inductive ChangeType
  | REPAIR
  | FAILURE
  | NVR_FAILURE
deriving Repr, DecidableEq

/-- One entry of the tick's `changes` array (loosely-typed in the source:
optional `camera`, `nvrId`, `message` fields). -/
structure Change where
  type : ChangeType
  camera : Option Camera := none
  nvrId : Option String := none
  message : Option String := none
deriving Repr, DecidableEq

/-- The predicate `f.cameraId === cid && f.timeOn === undefined` used
throughout `App.tsx` to recognise an open fault of camera `cid`. -/
def isOpenFor (cid : String) (f : FaultRecord) : Bool :=
  f.cameraId == cid && f.timeOn == none

/-- The open faults of camera `cid` in a fault collection. -/
def openFaultsFor (faults : List FaultRecord) (cid : String) : List FaultRecord :=
  faults.filter (isOpenFor cid)

/-- `nextFaults.some(f => f.cameraId === cam.id && f.timeOn === undefined)`
from the tick's NVR_FAILURE fault sync. -/
def hasOpenFault (faults : List FaultRecord) (cid : String) : Bool :=
  faults.any (isOpenFor cid)

/-- The open-fault-closing map used both by `handleReconnect` and by the
REPAIR branch of the tick's fault sync:
`faults.map(f => (f.cameraId === cid && f.timeOn === undefined) ? { ...f, timeOn: now } : f)`. -/
def closeOpenFaults (faults : List FaultRecord) (cid : String) (now : Nat) : List FaultRecord :=
  faults.map (fun f => if isOpenFor cid f then { f with timeOn := some now } else f)

/-- The open FaultRecord literal pushed by the tick's fault sync and by the
add-NVR failure path. -/
def newFaultFor (cam : Camera) (now : Nat) (fid : String) : FaultRecord :=
  { id := fid, cameraId := cam.id, cameraName := cam.name, location := cam.location,
    nvrId := cam.nvrId, timeOff := now, timeOn := none, acknowledged := false }

/-- The per-camera roll of the simulation tick (`prevCameras.map(cam => ...)`
in `App.tsx`).  `hit` models the camera's uniform draw falling below the
applicable threshold (repair 20% when offline, failure 0.5% when online);
`stillDown` models `Math.random() > 0.5` in the NVR-recovery gate.
Returns the resulting camera, the optional transition record pushed to
`changes`, and whether `updateNvrs` was invoked to bring the parent NVR
back ONLINE.  `parentOfflineOf` is the lookup
`nvrs.find(n => n.id === cam.nvrId)?.status === 'OFFLINE'` against the
pre-tick NVR collection captured by the effect closure. -/
def parentOfflineOf (preNvrs : List NvrDevice) (cam : Camera) : Bool :=
  match preNvrs.find? (fun n => n.id == cam.nvrId) with
  | some n => n.status == NvrStatus.OFFLINE
  | none => false

/-- The `updatedCam` literal of the tick's repair branch:
`{ ...cam, isOnline: true, isRecording: true, statusChangedAt: now }`. -/
def repairedCam (cam : Camera) (now : Nat) : Camera :=
  { cam with isOnline := true, isRecording := true, statusChangedAt := now }

/-- The `updatedCam` literal of the tick's failure branch:
`{ ...cam, isOnline: false, isRecording: false, statusChangedAt: now }`. -/
def failedCam (cam : Camera) (now : Nat) : Camera :=
  { cam with isOnline := false, isRecording := false, statusChangedAt := now }

/-- See `parentOfflineOf`: the body of the tick's `prevCameras.map` callback. -/
def camRollOutcome (preNvrs : List NvrDevice) (now : Nat) (hit stillDown : Bool)
    (cam : Camera) : Camera × Option Change × Bool :=
  if !cam.isOnline && hit then
    if parentOfflineOf preNvrs cam && stillDown then (cam, none, false)
    else
      (repairedCam cam now,
       some { type := ChangeType.REPAIR, camera := some (repairedCam cam now) },
       parentOfflineOf preNvrs cam)
  else if cam.isOnline && hit then
    (failedCam cam now,
     some { type := ChangeType.FAILURE, camera := some (failedCam cam now) },
     false)
  else (cam, none, false)

/-- Rolls every camera in order, drawing its `hit`/`stillDown` booleans from
the position-indexed draw functions. -/
def rollCameras (preNvrs : List NvrDevice) (now : Nat) (hit stillDown : Nat → Bool) :
    Nat → List Camera → List (Camera × Option Change × Bool)
  | _, [] => []
  | i, c :: cs =>
      camRollOutcome preNvrs now (hit i) (stillDown i) c ::
        rollCameras preNvrs now hit stillDown (i + 1) cs

/-- `prevCameras.filter(c => c.nvrId === change.nvrId)` from the tick's
NVR_FAILURE fault sync. -/
def relevantCamsFor (prevCameras : List Camera) (ch : Change) : List Camera :=
  prevCameras.filter (fun c => match ch.nvrId with | some t => c.nvrId == t | none => false)

/-- The inner `relevantCams.forEach` of the tick's NVR_FAILURE fault sync:
push a fresh open fault for every listed camera that has no open fault in
the accumulated collection.  The `Nat` component threads the id counter. -/
def nvrFailurePush (now : Nat) (g : Nat → String) :
    List Camera → List FaultRecord × Nat → List FaultRecord × Nat
  | [], acc => acc
  | cam :: cams, (fs, k) =>
      if hasOpenFault fs cam.id then nvrFailurePush now g cams (fs, k)
      else nvrFailurePush now g cams (fs ++ [newFaultFor cam now (g k)], k + 1)

/-- The `changes.forEach` of the tick's fault sync: REPAIR closes the open
faults of its camera, FAILURE appends a fresh open fault; other entries are
ignored by this loop. -/
def applyChange (now : Nat) (g : Nat → String) (acc : List FaultRecord × Nat)
    (ch : Change) : List FaultRecord × Nat :=
  match ch.type, ch.camera with
  | ChangeType.REPAIR, some camera => (closeOpenFaults acc.1 camera.id now, acc.2)
  | ChangeType.FAILURE, some camera => (acc.1 ++ [newFaultFor camera now (g acc.2)], acc.2 + 1)
  | _, _ => acc

/-- The tick's `updateFaults` callback: first the NVR_FAILURE loop (against
the pre-tick camera snapshot), then the REPAIR/FAILURE loop. -/
def syncFaults (changes : List Change) (prevCameras : List Camera) (now : Nat)
    (g : Nat → String) (prevFaults : List FaultRecord) : List FaultRecord :=
  let afterNvr := (changes.filter (fun c => c.type == ChangeType.NVR_FAILURE)).foldl
    (fun acc ch => nvrFailurePush now g (relevantCamsFor prevCameras ch) acc)
    (prevFaults, 0)
  (changes.foldl (applyChange now g) afterNvr).1

/-- The CRITICAL system alert pushed for an NVR_FAILURE change
(`cameraName: c.nvrId || 'System'`, `message: c.message || 'Network Failure'`). -/
def nvrFailureAlert (ch : Change) (now : Nat) (aid : String) : Alert :=
  { id := aid, cameraId := "SYSTEM",
    cameraName := match ch.nvrId with
      | some t => if t == "" then "System" else t
      | none => "System",
    timestamp := now,
    message := match ch.message with
      | some m => if m == "" then "Network Failure" else m
      | none => "Network Failure",
    severity := Severity.CRITICAL, thumbnail := none }

/-- The WARNING alert pushed for a single-camera FAILURE change. -/
def failureAlert (cam : Camera) (now : Nat) (aid : String) : Alert :=
  { id := aid, cameraId := cam.id, cameraName := cam.name, timestamp := now,
    message := "Connection lost with " ++ cam.nvrId ++ ". Signal unavailable.",
    severity := Severity.WARNING, thumbnail := none }

/-- The `newAlerts` array built by the tick's `updateAlerts` callback:
NVR_FAILURE alerts first, then FAILURE alerts, ids drawn from `g`. -/
def alertsOfChanges (now : Nat) (g : Nat → String) (changes : List Change) : List Alert :=
  let step1 := (changes.filter (fun c => c.type == ChangeType.NVR_FAILURE)).foldl
    (fun (acc : List Alert × Nat) ch => (acc.1 ++ [nvrFailureAlert ch now (g acc.2)], acc.2 + 1))
    ([], 0)
  let step2 := (changes.filter (fun c => c.type == ChangeType.FAILURE && c.camera.isSome)).foldl
    (fun (acc : List Alert × Nat) ch =>
      match ch.camera with
      | some cam => (acc.1 ++ [failureAlert cam now (g acc.2)], acc.2 + 1)
      | none => acc)
    step1
  step2.1

/-- The tick's `updateAlerts` callback: `[...newAlerts, ...prevAlerts]`. -/
def syncAlerts (changes : List Change) (now : Nat) (g : Nat → String)
    (prevAlerts : List Alert) : List Alert :=
  alertsOfChanges now g changes ++ prevAlerts

/-- The random draws consumed by one simulation tick. -/
structure TickDraws where
  nvrFailRoll : Bool
  nvrTargetIdx : Nat
  camHit : Nat → Bool
  camNvrStillDown : Nat → Bool

/-- The NVR-failure selection of the tick: draw, pick
`nvrIds[floor(random * nvrIds.length)]` among the distinct NVR ids of the
current cameras, and fire only if that NVR's cameras are not already all
offline.  Returns the target NVR id when the failure branch is taken. -/
def nvrFailTargetOf (s : AppState) (d : TickDraws) : Option String :=
  if d.nvrFailRoll then
    let nvrIds := (s.cameras.map (fun c => c.nvrId)).eraseDups
    match nvrIds.get? (d.nvrTargetIdx % nvrIds.length) with
    | some t =>
        if (s.cameras.filter (fun c => c.nvrId == t)).all (fun c => !c.isOnline) then none
        else some t
    | none => none
  else none

/-- The changes list extracted from the tick outcomes. -/
def changesOf (outcomes : List (Camera × Option Change × Bool)) : List Change :=
  outcomes.filterMap (fun o => o.2.1)

/-- The outcome list of one tick's per-camera rolls. -/
def tickOutcomes (s : AppState) (now : Nat) (d : TickDraws) :
    List (Camera × Option Change × Bool) :=
  rollCameras s.nvrs now d.camHit d.camNvrStillDown 0 s.cameras

/-- The accumulated effect on the NVR collection of the
`updateNvrs(curr => curr.map(n => n.id === cam.nvrId ? ONLINE : n))` calls
issued by recovering cameras during the per-camera rolls. -/
def tickRecoveredNvrs (s : AppState)
    (outcomes : List (Camera × Option Change × Bool)) : List NvrDevice :=
  s.nvrs.map (fun n =>
    if ((outcomes.filter (fun o => o.2.2)).map (fun o => o.1.nvrId)).contains n.id then
      { n with status := NvrStatus.ONLINE }
    else n)

/-- The per-camera phase of the tick: roll every camera, apply any NVR
recoveries issued during the rolls, and if any transition occurred run the
fault and alert syncs; otherwise return the previous camera array
untouched.  Returns the new state together with the tick's `changes`. -/
def perCameraPhase (s : AppState) (now : Nat) (d : TickDraws)
    (gF gA : Nat → String) : AppState × List Change :=
  let outcomes := tickOutcomes s now d
  let changes := changesOf outcomes
  if changes.isEmpty then ({ s with nvrs := tickRecoveredNvrs s outcomes }, changes)
  else
    ({ s with
        cameras := outcomes.map (fun o => o.1)
        nvrs := tickRecoveredNvrs s outcomes
        faults := syncFaults changes s.cameras now gF s.faults
        alerts := syncAlerts changes now gA s.alerts },
     changes)

/-- One simulation tick (the `setInterval` body of `App.tsx`).  When the
NVR-failure branch fires for target `t` the callback returns the cascaded
camera array immediately (marking the NVR OFFLINE on the way), so the
per-camera rolls and the fault/alert syncs are skipped for that tick;
otherwise the per-camera phase runs. -/
def tickResult (s : AppState) (now : Nat) (d : TickDraws)
    (gF gA : Nat → String) : AppState × List Change :=
  match nvrFailTargetOf s d with
  | some t =>
      ({ s with
          nvrs := s.nvrs.map (fun n => if n.id == t then { n with status := NvrStatus.OFFLINE } else n),
          cameras := s.cameras.map (fun c =>
            if c.nvrId == t then
              { c with isOnline := false, isRecording := false, statusChangedAt := now }
            else c) },
       [{ type := ChangeType.NVR_FAILURE, nvrId := some t,
          message := some ("NVR Network Unreachable: " ++ t) }])
  | none => perCameraPhase s now d gF gA

/-- The state after one simulation tick. -/
def tick (s : AppState) (now : Nat) (d : TickDraws) (gF gA : Nat → String) : AppState :=
  (tickResult s now d gF gA).1

/-- The `changes` array produced by one simulation tick. -/
def tickChanges (s : AppState) (now : Nat) (d : TickDraws) (gF gA : Nat → String) : List Change :=
  (tickResult s now d gF gA).2

/-- `handleReconnect` from `App.tsx`: force the camera online and recording,
close its open faults, and drop every alert whose `cameraId` is the
reconnected camera (the success toast is not a persisted alert). -/
def handleReconnect (s : AppState) (cameraId : String) (now : Nat) : AppState :=
  { s with
    cameras := s.cameras.map (fun c =>
      if c.id == cameraId then
        { c with isOnline := true, isRecording := true, statusChangedAt := now }
      else c),
    faults := closeOpenFaults s.faults cameraId now,
    alerts := s.alerts.filter (fun a => a.cameraId != cameraId) }

/-- `executeDeleteNvr` from `App.tsx`: remove the NVR, remove its cameras,
remove those camera ids from the live view, and prepend an INFO system
alert.  The fault collection is not touched by this handler. -/
def executeDeleteNvr (s : AppState) (deleteNvrId : String) (now : Nat) (aid : String) : AppState :=
  let camerasToRemove := (s.cameras.filter (fun c => c.nvrId == deleteNvrId)).map (fun c => c.id)
  { s with
    nvrs := s.nvrs.filter (fun n => n.id != deleteNvrId),
    cameras := s.cameras.filter (fun c => c.nvrId != deleteNvrId),
    liveCameraIds := s.liveCameraIds.filter (fun cid => !(camerasToRemove.contains cid)),
    alerts := { id := aid, cameraId := "SYSTEM", cameraName := "System", timestamp := now,
                message := "NVR Deleted: " ++ deleteNvrId ++ ". All associated devices removed.",
                severity := Severity.INFO, thumbnail := none } :: s.alerts }

/-- Text of a threat level as it appears in alert messages. -/
def threatLevelText : ThreatLevel → String
  | ThreatLevel.LOW => "LOW"
  | ThreatLevel.MEDIUM => "MEDIUM"
  | ThreatLevel.HIGH => "HIGH"
  | ThreatLevel.CRITICAL => "CRITICAL"

/-- `handleAnalysisResult` from `App.tsx`: store the result on the camera
and, when the threat level is HIGH/CRITICAL or the anomaly list is
non-empty, prepend an alert (CRITICAL iff the threat level is CRITICAL,
message `threatLevel: anomalies or 'Suspicious activity'`, thumbnail = the
analyzed frame). -/
def handleAnalysisResult (s : AppState) (cameraId : String) (result : AnalysisResult)
    (frame : String) (now : Nat) (aid : String) : AppState :=
  let cameras2 := s.cameras.map (fun cam =>
    if cam.id == cameraId then { cam with lastAnalysis := some result, lastUpdate := now }
    else cam)
  let fire := result.threatLevel == ThreatLevel.HIGH
      || result.threatLevel == ThreatLevel.CRITICAL
      || !result.anomalies.isEmpty
  let alerts2 :=
    if fire then
      { id := aid, cameraId := cameraId,
        cameraName := match s.cameras.find? (fun c => c.id == cameraId) with
          | some c => c.name
          | none => "Unknown",
        timestamp := now,
        severity := if result.threatLevel == ThreatLevel.CRITICAL then Severity.CRITICAL
          else Severity.WARNING,
        message := threatLevelText result.threatLevel ++ ": " ++
          (let j := String.intercalate ", " result.anomalies
           if j == "" then "Suspicious activity" else j),
        thumbnail := some frame } :: s.alerts
    else s.alerts
  { s with cameras := cameras2, alerts := alerts2 }

/-- The `!apiKey` fallback of `geminiService.analyzeFrame`: a degraded but
well-formed result returned when no API credentials are configured. -/
def analyzeFrameNoKey (timestamp : String) : AnalysisResult :=
  { timestamp := timestamp,
    summary := "API Key Missing. Please check your .env file.",
    personCount := 0,
    threatLevel := ThreatLevel.LOW,
    detectedObjects := [],
    anomalies := ["Configuration Error"] }

/-- The NVR add/edit form state of `App.tsx`. -/
structure NvrForm where
  name : String
  ip : String
  port : String
  username : String
  password : String
  protocol : String
deriving Repr, DecidableEq

/-- The validation guard at the top of `handleSaveNvr`:
`if (!nvrForm.ip || !nvrForm.username || !nvrForm.password)` (empty strings
are falsy). -/
def formValid (f : NvrForm) : Bool :=
  !(f.ip == "" || f.username == "" || f.password == "")

/-- The credentials check of `handleSaveNvr`. -/
def isValidAuth (f : NvrForm) : Bool :=
  f.username == "admin" && f.password == "12345"

/-- `initialStatus` computed by `handleSaveNvr` from the simulated
connection outcome. -/
def initialStatusOf (isSuccess isNetworkReachable : Bool) : NvrStatus :=
  if isSuccess then NvrStatus.ONLINE
  else if !isNetworkReachable then NvrStatus.OFFLINE
  else NvrStatus.AUTH_FAILURE

/-- Text of an NVR status as interpolated into alert messages. -/
def nvrStatusText : NvrStatus → String
  | NvrStatus.ONLINE => "ONLINE"
  | NvrStatus.OFFLINE => "OFFLINE"
  | NvrStatus.AUTH_FAILURE => "AUTH_FAILURE"

/-- The edit branch of `handleSaveNvr`: update the NVR record with the form
fields and the computed status; on failure set every camera of this NVR
`isOnline: false` (only that field), on success set them `isOnline: true`;
prepend a system alert.  `isNetworkReachable` models `Math.random() > 0.1`. -/
def handleSaveNvrEdit (s : AppState) (editId : String) (form : NvrForm)
    (isNetworkReachable : Bool) (now : Nat) (aid : String) : AppState :=
  if !formValid form then s
  else
    let isSuccess := isValidAuth form && isNetworkReachable
    let st := initialStatusOf isSuccess isNetworkReachable
    let nvrs2 := s.nvrs.map (fun n =>
      if n.id == editId then
        { n with
            name := if form.name == "" then n.name else form.name
            ip := form.ip
            port := form.port
            username := form.username
            password := some form.password
            protocol := form.protocol
            status := st }
      else n)
    let cameras2 :=
      if !isSuccess then
        s.cameras.map (fun c => if c.nvrId == editId then { c with isOnline := false } else c)
      else
        s.cameras.map (fun c => if c.nvrId == editId then { c with isOnline := true } else c)
    let a : Alert :=
      { id := aid, cameraId := "SYSTEM", cameraName := "System", timestamp := now,
        message := "NVR Configuration Updated: " ++ editId ++ ". Status: " ++ nvrStatusText st,
        severity := if isSuccess then Severity.INFO else Severity.WARNING, thumbnail := none }
    { s with nvrs := nvrs2, cameras := cameras2, alerts := a :: s.alerts }

/-- `padStart(k, '0')` on strings. -/
def padZero (k : Nat) (s : String) : String :=
  if s.length >= k then s else String.mk (List.replicate (k - s.length) '0') ++ s

/-- `NVR-${ipSegment.padStart(3, '0')}` where `ipSegment` is the last
dot-separated segment of the form's ip, or a random number string when that
segment is empty (`split('.').pop() || random`). -/
def newNvrIdOf (form : NvrForm) (randSeg : String) : String :=
  let raw := ((form.ip.splitOn ".").getLast?).getD ""
  let seg := if raw == "" then randSeg else raw
  "NVR-" ++ padZero 3 seg

/-- One of the 8 cameras generated by the add branch of `handleSaveNvr`
(`i` runs from 1 to 8; `camId` models `generateId()`). -/
def mkNewCamera (form : NvrForm) (newNvrId : String) (now : Nat) (camId : String)
    (i : Nat) (isSuccess : Bool) : Camera :=
  { id := "cam-" ++ camId,
    name := "CAM-" ++ padZero 2 (toString i),
    location := if form.name == "" then "External IP " ++ form.ip else form.name,
    nvrId := newNvrId,
    type := CameraType.SIMULATED,
    sourceUrl := some ("https://picsum.photos/800/600?random=" ++ toString (now + i)),
    isOnline := isSuccess,
    isRecording := isSuccess,
    statusChangedAt := now,
    lastAnalysis := none,
    lastUpdate := now }

/-- The camera batch generated by the add branch of `handleSaveNvr`. -/
def mkNewCameras (form : NvrForm) (newNvrId : String) (now : Nat)
    (camIds : Nat → String) (isSuccess : Bool) : List Camera :=
  (List.range 8).map (fun j => mkNewCamera form newNvrId now (camIds j) (j + 1) isSuccess)

/-- The `newCameras.forEach(... newFaults.push ...)` of the add-NVR failure
path: one fresh open fault per generated camera. -/
def mkOpenFaults (g : Nat → String) (now : Nat) : List Camera → Nat → List FaultRecord
  | [], _ => []
  | c :: cs, k => newFaultFor c now (g k) :: mkOpenFaults g now cs (k + 1)

/-- The add branch of `handleSaveNvr`: append the new NVR, append 8
generated cameras (online and recording iff the connection succeeded), on
failure append one open fault per generated camera, and prepend a system
alert (INFO on success, CRITICAL on failure). -/
def handleSaveNvrAdd (s : AppState) (form : NvrForm) (isNetworkReachable : Bool)
    (now : Nat) (randSeg : String) (camIds : Nat → String) (gF : Nat → String)
    (aid : String) : AppState :=
  if !formValid form then s
  else
    let isSuccess := isValidAuth form && isNetworkReachable
    let st := initialStatusOf isSuccess isNetworkReachable
    let nid := newNvrIdOf form randSeg
    let newNvr : NvrDevice :=
      { id := nid,
        name := if form.name == "" then "New NVR " ++ nid else form.name,
        ip := form.ip, port := form.port, username := form.username,
        password := some form.password, protocol := form.protocol,
        status := st, addedAt := now }
    let newCams := mkNewCameras form nid now camIds isSuccess
    let a : Alert :=
      { id := aid, cameraId := "SYSTEM", cameraName := "System", timestamp := now,
        message := if isSuccess then "NVR Added: " ++ nid else "NVR Added with Error: " ++ nid,
        severity := if isSuccess then Severity.INFO else Severity.CRITICAL, thumbnail := none }
    { s with
        nvrs := s.nvrs ++ [newNvr]
        cameras := s.cameras ++ newCams
        faults := if isSuccess then s.faults else s.faults ++ mkOpenFaults gF now newCams 0
        alerts := a :: s.alerts }

/-- The persisted store of `databaseService.ts` (the five collections plus
the `sentinel_initialized` marker). -/
structure DbState where
  cameras : List Camera
  nvrs : List NvrDevice
  users : List User
  alerts : List Alert
  faults : List FaultRecord
  initialized : Bool
deriving Repr, DecidableEq

/-- The parsed shape of a backup blob.  A `none` collection models a key
missing from the parsed JSON object; the JSON encode/parse layer itself is
treated as the identity on these records. -/
structure BackupData where
  cameras : Option (List Camera)
  nvrs : Option (List NvrDevice)
  users : Option (List User)
  alerts : Option (List Alert)
  faults : Option (List FaultRecord)
  timestamp : Nat
  version : String
deriving Repr, DecidableEq

/-- `db.createBackup` from `databaseService.ts`: serialize the five
collections plus a timestamp and the format version `'1.0'`. -/
def createBackup (dbS : DbState) (now : Nat) : BackupData :=
  { cameras := some dbS.cameras, nvrs := some dbS.nvrs, users := some dbS.users,
    alerts := some dbS.alerts, faults := some dbS.faults,
    timestamp := now, version := "1.0" }

/-- `db.restoreBackup` from `databaseService.ts`: require `cameras` and
`nvrs` to be present arrays (otherwise fail with no partial application),
default the remaining collections to empty, and mark the store
initialized.  Returns the restored store, or `none` on validation failure
(the source returns `false`). -/
def restoreBackup (data : BackupData) : Option DbState :=
  match data.cameras, data.nvrs with
  | some cams, some nvs =>
      some { cameras := cams, nvrs := nvs,
             users := data.users.getD [], alerts := data.alerts.getD [],
             faults := data.faults.getD [], initialized := true }
  | _, _ => none

/-! ### Basic lemmas about the fault ledger primitives -/

theorem isOpenFor_iff (cid : String) (f : FaultRecord) :
    isOpenFor cid f = true ↔ f.cameraId = cid ∧ f.timeOn = none := by
  simp [isOpenFor]

theorem isOpenFor_mk_closed (cid : String) (f : FaultRecord) (now : Nat) :
    isOpenFor cid { f with timeOn := some now } = false := by
  simp [isOpenFor]

theorem isOpenFor_newFault (cid : String) (cam : Camera) (now : Nat) (fid : String) :
    isOpenFor cid (newFaultFor cam now fid) = (cam.id == cid) := by
  simp [isOpenFor, newFaultFor]

theorem openFaultsFor_nil (cid : String) : openFaultsFor [] cid = [] := rfl

theorem openFaultsFor_cons (f : FaultRecord) (fs : List FaultRecord) (cid : String) :
    openFaultsFor (f :: fs) cid =
      if isOpenFor cid f then f :: openFaultsFor fs cid else openFaultsFor fs cid := by
  simp [openFaultsFor, List.filter_cons]

theorem openFaultsFor_append (a b : List FaultRecord) (cid : String) :
    openFaultsFor (a ++ b) cid = openFaultsFor a cid ++ openFaultsFor b cid := by
  simp [openFaultsFor, List.filter_append]

theorem closeOpenFaults_cons (f : FaultRecord) (fs : List FaultRecord) (cid : String) (now : Nat) :
    closeOpenFaults (f :: fs) cid now =
      (if isOpenFor cid f then { f with timeOn := some now } else f) :: closeOpenFaults fs cid now := rfl

theorem closeOpenFaults_length (faults : List FaultRecord) (cid : String) (now : Nat) :
    (closeOpenFaults faults cid now).length = faults.length := by
  simp [closeOpenFaults]

theorem openFaultsFor_close_self (faults : List FaultRecord) (cid : String) (now : Nat) :
    openFaultsFor (closeOpenFaults faults cid now) cid = [] := by
  induction faults with
  | nil => rfl
  | cons f fs ih =>
    rcases Bool.eq_false_or_eq_true (isOpenFor cid f) with h | h <;>
      simp [closeOpenFaults_cons, openFaultsFor_cons, h, isOpenFor_mk_closed, ih]

theorem openFaultsFor_close_other (faults : List FaultRecord) (cid cid' : String)
    (h : cid' ≠ cid) (now : Nat) :
    openFaultsFor (closeOpenFaults faults cid now) cid' = openFaultsFor faults cid' := by
  induction faults with
  | nil => rfl
  | cons f fs ih =>
    rcases Bool.eq_false_or_eq_true (isOpenFor cid f) with hc | hc
    · have hcam : f.cameraId = cid := ((isOpenFor_iff cid f).1 hc).1
      have h1 : isOpenFor cid' f = false := by
        simp [isOpenFor, hcam]
        exact fun hh => (h hh.symm).elim
      have h2 : isOpenFor cid' { f with timeOn := some now } = false :=
        isOpenFor_mk_closed cid' f now
      simp [closeOpenFaults_cons, openFaultsFor_cons, hc, h1, h2, ih]
    · simp [closeOpenFaults_cons, openFaultsFor_cons, hc, ih]

theorem closeOpenFaults_of_no_open (faults : List FaultRecord) (cid : String) (now : Nat)
    (h : openFaultsFor faults cid = []) : closeOpenFaults faults cid now = faults := by
  induction faults with
  | nil => rfl
  | cons f fs ih =>
    rw [openFaultsFor_cons] at h
    rcases Bool.eq_false_or_eq_true (isOpenFor cid f) with hc | hc
    · rw [if_pos hc] at h
      exact absurd h (List.cons_ne_nil f _)
    · rw [if_neg (by simp [hc])] at h
      simp [closeOpenFaults_cons, hc, ih h]

/-! ### C10 — backup round-trip -/

/-- C10: exporting the full snapshot with `createBackup` and importing the
resulting blob with `restoreBackup` into a freshly reset store succeeds and
reproduces the camera, NVR, user, alert, and fault collections exactly
(list equality, hence equality as sets of records). -/
theorem c10_backup_roundtrip (dbS : DbState) (now : Nat) :
    restoreBackup (createBackup dbS now) =
      some { cameras := dbS.cameras, nvrs := dbS.nvrs, users := dbS.users,
             alerts := dbS.alerts, faults := dbS.faults, initialized := true } := rfl

/-! ### C1 — cascading NVR delete -/

/-- Concrete camera used by the executable test states. -/
def cam1 : Camera :=
  { id := "c1", name := "CAM-01", location := "L1", nvrId := "N1",
    type := CameraType.SIMULATED, sourceUrl := none, isOnline := true, isRecording := true,
    statusChangedAt := 0, lastAnalysis := none, lastUpdate := 0 }

/-- Concrete NVR used by the executable test states. -/
def nvr1 : NvrDevice :=
  { id := "N1", name := "NVR One", ip := "10.0.0.1", port := "8000",
    username := "admin", password := some "12345", protocol := "ONVIF",
    status := NvrStatus.ONLINE, addedAt := 0 }

/-- An open fault referencing `cam1`. -/
def fault1 : FaultRecord :=
  { id := "f1", cameraId := "c1", cameraName := "CAM-01", location := "L1", nvrId := "N1",
    timeOff := 2, timeOn := none, acknowledged := false }

/-- A state with one NVR, one camera under it, and one fault referencing
that camera. -/
def stateC1 : AppState :=
  { cameras := [cam1], nvrs := [nvr1], users := [], faults := [fault1],
    alerts := [], liveCameraIds := ["c1"] }

/-- C1 counterexample: deleting NVR `N1` removes its camera `c1`, but the
FaultRecord referencing `c1` survives the deletion, so the claim that every
FaultRecord referencing the removed cameras is removed is false. -/
theorem c1_counterexample :
    (executeDeleteNvr stateC1 "N1" 10 "a1").cameras = [] ∧
    (executeDeleteNvr stateC1 "N1" 10 "a1").faults = [fault1] := by
  constructor <;> rfl

/-- C1 amended: deleting NVR `N` removes every camera whose `nvrId` equals
`N` and removes those camera ids from the pinned/live-view membership set,
but leaves the fault collection unchanged (FaultRecords referencing the
removed cameras are retained). -/
theorem c1_delete_nvr_behavior (s : AppState) (nid : String) (now : Nat) (aid : String) :
    (executeDeleteNvr s nid now aid).nvrs = s.nvrs.filter (fun n => n.id != nid) ∧
    (executeDeleteNvr s nid now aid).cameras = s.cameras.filter (fun c => c.nvrId != nid) ∧
    (∀ c ∈ (executeDeleteNvr s nid now aid).cameras, c.nvrId ≠ nid) ∧
    (∀ cid ∈ (executeDeleteNvr s nid now aid).liveCameraIds,
        ∀ c ∈ s.cameras, c.nvrId = nid → c.id ≠ cid) ∧
    (executeDeleteNvr s nid now aid).faults = s.faults := by
  refine ⟨rfl, rfl, ?_, ?_, rfl⟩
  · intro c hc
    have := (List.mem_filter.1 hc).2
    simpa using this
  · intro cid hcid c hc hnvr heq
    have h2 := (List.mem_filter.1 hcid).2
    simp at h2
    exact h2 c hc hnvr heq

/-! ### C4 — degraded analysis handling -/

/-- C4 counterexample: applying the no-credentials fallback result through
`handleAnalysisResult` produces an Alert (the fallback's `anomalies` list is
`["Configuration Error"]`, which is non-empty, so the anomaly condition
fires), contradicting the claim that no Alert is produced. -/
theorem c4_counterexample :
    ((handleAnalysisResult stateC1 "c1" (analyzeFrameNoKey "t0") "frame" 9 "a2").alerts.length = 1)
    ∧ stateC1.alerts.length = 0 := by
  constructor <;> rfl

/-- C4 amended: the no-credentials frame-analysis fallback returns a result
with `threatLevel = LOW`, empty `detectedObjects`, a non-empty `summary`,
and `anomalies = ["Configuration Error"]`; applying that result via
`handleAnalysisResult` prepends exactly one WARNING alert (message
`"LOW: Configuration Error"`) because the anomaly list is non-empty. -/
theorem c4_degraded_analysis (ts : String) (s : AppState) (cid frame : String)
    (now : Nat) (aid : String) :
    (analyzeFrameNoKey ts).threatLevel = ThreatLevel.LOW ∧
    (analyzeFrameNoKey ts).detectedObjects = [] ∧
    (analyzeFrameNoKey ts).summary ≠ "" ∧
    (analyzeFrameNoKey ts).anomalies = ["Configuration Error"] ∧
    (handleAnalysisResult s cid (analyzeFrameNoKey ts) frame now aid).alerts =
      { id := aid, cameraId := cid,
        cameraName := match s.cameras.find? (fun c => c.id == cid) with
          | some c => c.name
          | none => "Unknown",
        timestamp := now, severity := Severity.WARNING,
        message := "LOW: Configuration Error",
        thumbnail := some frame } :: s.alerts := by
  exact ⟨rfl, rfl,
    (by decide : "API Key Missing. Please check your .env file." ≠ ""), rfl, rfl⟩

/-! ### C9 — alert purge on manual reconnect -/

/-- C9: manual reconnect of camera `cid` leaves exactly the alerts whose
source camera id differs from `cid`: every alert referencing `cid` is
removed, every alert for another camera or for SYSTEM is retained (in
order), and no new persisted alert is appended (the result is a sublist of
the original alert list). -/
theorem c9_alert_purge (s : AppState) (cid : String) (now : Nat) (hs : cid ≠ "SYSTEM") :
    (handleReconnect s cid now).alerts = s.alerts.filter (fun a => a.cameraId != cid) ∧
    (∀ a ∈ (handleReconnect s cid now).alerts, a.cameraId ≠ cid) ∧
    (∀ a ∈ s.alerts, a.cameraId ≠ cid → a ∈ (handleReconnect s cid now).alerts) ∧
    (∀ a ∈ s.alerts, a.cameraId = "SYSTEM" → a ∈ (handleReconnect s cid now).alerts) ∧
    List.Sublist (handleReconnect s cid now).alerts s.alerts := by
  refine ⟨rfl, ?_, ?_, ?_, ?_⟩
  · intro a ha
    have := (List.mem_filter.1 ha).2
    simpa using this
  · intro a ha hne
    exact List.mem_filter.2 ⟨ha, by simpa using hne⟩
  · intro a ha hsys
    refine List.mem_filter.2 ⟨ha, ?_⟩
    rw [hsys]
    simpa using fun hh => hs hh.symm
  · exact List.filter_sublist s.alerts

/-! ### C8 — fault close correctness -/

/-- C8: if camera `cid` has exactly one open fault `f` (opened at
`f.timeOff`), the repair/reconnect fault-close at a later time `T1` keeps
the collection length (no new FaultRecord is appended), contains `f` closed
with `timeOn = T1`, and leaves no open fault for `cid`; and when a camera
has no open fault the fault-close is a no-op on the collection. -/
theorem c8_fault_close (faults : List FaultRecord) (cid : String) (f : FaultRecord)
    (T1 : Nat) (hone : openFaultsFor faults cid = [f]) (ht : f.timeOff < T1) :
    (closeOpenFaults faults cid T1).length = faults.length ∧
    { f with timeOn := some T1 } ∈ closeOpenFaults faults cid T1 ∧
    openFaultsFor (closeOpenFaults faults cid T1) cid = [] ∧
    (∀ g : List FaultRecord, ∀ c : String,
        openFaultsFor g c = [] → closeOpenFaults g c T1 = g) := by
  have hmem : f ∈ openFaultsFor faults cid := by rw [hone]; exact List.mem_singleton_self f
  have hf : f ∈ faults ∧ isOpenFor cid f = true := by
    have := hmem
    rw [openFaultsFor] at this
    exact List.mem_filter.1 this
  refine ⟨closeOpenFaults_length faults cid T1, ?_, openFaultsFor_close_self faults cid T1,
    fun g c hg => closeOpenFaults_of_no_open g c T1 hg⟩
  have := List.mem_map_of_mem
    (fun g => if isOpenFor cid g then { g with timeOn := some T1 } else g) hf.1
  simpa [closeOpenFaults, hf.2] using this

/-- C8 witness: a concrete fault collection with a single open fault for
`"c1"` opened at time 2, closed at time 7. -/
theorem c8_witness :
    openFaultsFor [fault1] "c1" = [fault1] ∧ fault1.timeOff < 7 ∧
    ((closeOpenFaults [fault1] "c1" 7).length = [fault1].length ∧
      { fault1 with timeOn := some 7 } ∈ closeOpenFaults [fault1] "c1" 7 ∧
      openFaultsFor (closeOpenFaults [fault1] "c1" 7) "c1" = [] ∧
      (∀ g : List FaultRecord, ∀ c : String,
          openFaultsFor g c = [] → closeOpenFaults g c 7 = g)) :=
  ⟨by decide, by decide, c8_fault_close [fault1] "c1" fault1 7 (by decide) (by decide)⟩

/-- C9 witness: a concrete reconnect purging the alerts of camera `"c1"`. -/
def alertC : Alert :=
  { id := "a1", cameraId := "c1", cameraName := "CAM-01", timestamp := 1,
    message := "m1", severity := Severity.WARNING, thumbnail := none }

/-- A SYSTEM alert for the C9 witness state. -/
def alertSys : Alert :=
  { id := "a2", cameraId := "SYSTEM", cameraName := "System", timestamp := 1,
    message := "m2", severity := Severity.CRITICAL, thumbnail := none }

/-- A state with two alerts referencing `"c1"` and one SYSTEM alert. -/
def stateC9 : AppState :=
  { cameras := [cam1], nvrs := [nvr1], users := [], faults := [],
    alerts := [alertC, alertSys, { alertC with id := "a3" }], liveCameraIds := [] }

/-- C9 witness: the purge theorem applied to the concrete state `stateC9`. -/
theorem c9_witness :
    ("c1" : String) ≠ "SYSTEM" ∧
    ((handleReconnect stateC9 "c1" 5).alerts =
        stateC9.alerts.filter (fun a => a.cameraId != "c1") ∧
      (∀ a ∈ (handleReconnect stateC9 "c1" 5).alerts, a.cameraId ≠ "c1") ∧
      (∀ a ∈ stateC9.alerts, a.cameraId ≠ "c1" → a ∈ (handleReconnect stateC9 "c1" 5).alerts) ∧
      (∀ a ∈ stateC9.alerts, a.cameraId = "SYSTEM" → a ∈ (handleReconnect stateC9 "c1" 5).alerts) ∧
      List.Sublist (handleReconnect stateC9 "c1" 5).alerts stateC9.alerts) :=
  ⟨by decide, c9_alert_purge stateC9 "c1" 5 (by decide)⟩

/-! ### Structure of the per-camera roll -/

theorem camRollOutcome_cases (p : List NvrDevice) (now : Nat) (hb st : Bool) (c : Camera) :
    camRollOutcome p now hb st c = (c, none, false) ∨
    (c.isOnline = false ∧
      camRollOutcome p now hb st c =
        (repairedCam c now,
         some { type := ChangeType.REPAIR, camera := some (repairedCam c now) },
         parentOfflineOf p c)) ∨
    (c.isOnline = true ∧
      camRollOutcome p now hb st c =
        (failedCam c now,
         some { type := ChangeType.FAILURE, camera := some (failedCam c now) },
         false)) := by
  unfold camRollOutcome
  split
  next hcond =>
    have hoff : c.isOnline = false := by
      simp [Bool.and_eq_true] at hcond
      exact hcond.1
    split
    · exact Or.inl rfl
    · exact Or.inr (Or.inl ⟨hoff, rfl⟩)
  next =>
    split
    next hcond2 =>
      have hon : c.isOnline = true := by
        simp [Bool.and_eq_true] at hcond2
        exact hcond2.1
      exact Or.inr (Or.inr ⟨hon, rfl⟩)
    next => exact Or.inl rfl

theorem camRollOutcome_id (p : List NvrDevice) (now : Nat) (hb st : Bool) (c : Camera) :
    (camRollOutcome p now hb st c).1.id = c.id := by
  rcases camRollOutcome_cases p now hb st c with h | ⟨_, h⟩ | ⟨_, h⟩ <;> rw [h] <;> rfl

theorem camRollOutcome_of_none (p : List NvrDevice) (now : Nat) (hb st : Bool) (c : Camera)
    (h : (camRollOutcome p now hb st c).2.1 = none) :
    camRollOutcome p now hb st c = (c, none, false) := by
  rcases camRollOutcome_cases p now hb st c with hh | ⟨_, hh⟩ | ⟨_, hh⟩
  · exact hh
  · rw [hh] at h; simp at h
  · rw [hh] at h; simp at h

theorem camRollOutcome_flagged (p : List NvrDevice) (now : Nat) (hb st : Bool) (c : Camera)
    (h : (camRollOutcome p now hb st c).2.2 = true) :
    (camRollOutcome p now hb st c).2.1 ≠ none := by
  rcases camRollOutcome_cases p now hb st c with hh | ⟨_, hh⟩ | ⟨_, hh⟩
  · rw [hh] at h; simp at h
  · rw [hh]; simp
  · rw [hh] at h; simp at h

theorem camRollOutcome_change (p : List NvrDevice) (now : Nat) (hb st : Bool) (c : Camera)
    (ch : Change) (h : (camRollOutcome p now hb st c).2.1 = some ch) :
    ch.camera = some (camRollOutcome p now hb st c).1 ∧
    (ch.type = ChangeType.REPAIR ∧ c.isOnline = false ∧
        (camRollOutcome p now hb st c).1 = repairedCam c now ∨
     ch.type = ChangeType.FAILURE ∧ c.isOnline = true ∧
        (camRollOutcome p now hb st c).1 = failedCam c now) := by
  rcases camRollOutcome_cases p now hb st c with hh | ⟨hOn, hh⟩ | ⟨hOn, hh⟩
  · rw [hh] at h; simp at h
  · rw [hh] at h
    simp only [Option.some.injEq] at h
    subst h
    rw [hh]
    exact ⟨rfl, Or.inl ⟨rfl, hOn, rfl⟩⟩
  · rw [hh] at h
    simp only [Option.some.injEq] at h
    subst h
    rw [hh]
    exact ⟨rfl, Or.inr ⟨rfl, hOn, rfl⟩⟩

/-! ### Structure of `rollCameras` -/

theorem rollCameras_cons (p : List NvrDevice) (now : Nat) (h st : Nat → Bool) (i : Nat)
    (c : Camera) (cs : List Camera) :
    rollCameras p now h st i (c :: cs) =
      camRollOutcome p now (h i) (st i) c :: rollCameras p now h st (i + 1) cs := rfl

theorem rollCameras_nil (p : List NvrDevice) (now : Nat) (h st : Nat → Bool) (i : Nat) :
    rollCameras p now h st i [] = [] := rfl

theorem rollCameras_fst_ids (p : List NvrDevice) (now : Nat) (h st : Nat → Bool) :
    ∀ (cams : List Camera) (i : Nat),
      (rollCameras p now h st i cams).map (fun o => o.1.id) = cams.map (fun c => c.id) := by
  intro cams
  induction cams with
  | nil => intro i; rfl
  | cons c cs ih =>
    intro i
    simp [rollCameras_cons, camRollOutcome_id, ih (i + 1)]

theorem mem_rollCameras (p : List NvrDevice) (now : Nat) (h st : Nat → Bool) :
    ∀ (cams : List Camera) (i : Nat) (o : Camera × Option Change × Bool),
      o ∈ rollCameras p now h st i cams →
      ∃ j c, c ∈ cams ∧ o = camRollOutcome p now (h j) (st j) c := by
  intro cams
  induction cams with
  | nil => intro i o ho; cases ho
  | cons c cs ih =>
    intro i o ho
    rw [rollCameras_cons] at ho
    rcases List.mem_cons.1 ho with h1 | h1
    · exact ⟨i, c, List.mem_cons_self c cs, h1⟩
    · obtain ⟨j, c2, hc2, he⟩ := ih (i + 1) o h1
      exact ⟨j, c2, List.mem_cons_of_mem c hc2, he⟩

/-- The camera id mentioned by a transition record, when it carries one. -/
def chTouchId (ch : Change) : Option String := ch.camera.map (fun c => c.id)

/-- All camera ids mentioned by a list of transition records. -/
def touchIds (changes : List Change) : List String := changes.filterMap chTouchId

/-- The camera ids of the FAILURE records in a list of transition records. -/
def failIds (changes : List Change) : List String :=
  changes.filterMap (fun ch =>
    match ch.type, ch.camera with
    | ChangeType.FAILURE, some c => some c.id
    | _, _ => none)

theorem touchIds_cons_some (ch : Change) (l : List Change) (cid : String)
    (h : chTouchId ch = some cid) : touchIds (ch :: l) = cid :: touchIds l := by
  simp [touchIds, List.filterMap_cons, h]

theorem touchIds_cons_none (ch : Change) (l : List Change)
    (h : chTouchId ch = none) : touchIds (ch :: l) = touchIds l := by
  simp [touchIds, List.filterMap_cons, h]

theorem mem_touchIds (changes : List Change) (cid : String) :
    cid ∈ touchIds changes ↔ ∃ ch ∈ changes, chTouchId ch = some cid := by
  simp [touchIds, List.mem_filterMap]

theorem failIds_subset_touchIds (changes : List Change) (cid : String)
    (h : cid ∈ failIds changes) : cid ∈ touchIds changes := by
  rw [failIds, List.mem_filterMap] at h
  obtain ⟨ch, hch, he⟩ := h
  refine (mem_touchIds changes cid).2 ⟨ch, hch, ?_⟩
  revert he
  cases ht : ch.type <;> cases hc : ch.camera <;> intro he <;> simp at he
  rw [chTouchId, hc]
  simp [he]

theorem changesOf_cons_none (o : Camera × Option Change × Bool)
    (os : List (Camera × Option Change × Bool)) (h : o.2.1 = none) :
    changesOf (o :: os) = changesOf os := by
  simp [changesOf, List.filterMap_cons, h]

theorem changesOf_cons_some (o : Camera × Option Change × Bool)
    (os : List (Camera × Option Change × Bool)) (ch : Change) (h : o.2.1 = some ch) :
    changesOf (o :: os) = ch :: changesOf os := by
  simp [changesOf, List.filterMap_cons, h]

theorem mem_changesOf (outcomes : List (Camera × Option Change × Bool)) (ch : Change) :
    ch ∈ changesOf outcomes ↔ ∃ o ∈ outcomes, o.2.1 = some ch := by
  simp [changesOf, List.mem_filterMap]

theorem touchIds_rollCameras_sublist (p : List NvrDevice) (now : Nat) (h st : Nat → Bool) :
    ∀ (cams : List Camera) (i : Nat),
      List.Sublist (touchIds (changesOf (rollCameras p now h st i cams)))
        (cams.map (fun c => c.id)) := by
  intro cams
  induction cams with
  | nil => intro i; simp [rollCameras_nil, changesOf, touchIds]
  | cons c cs ih =>
    intro i
    rw [rollCameras_cons]
    cases hch : (camRollOutcome p now (h i) (st i) c).2.1 with
    | none =>
      rw [changesOf_cons_none _ _ hch, List.map_cons]
      exact List.Sublist.cons _ (ih (i + 1))
    | some ch =>
      have hcam := (camRollOutcome_change p now (h i) (st i) c ch hch).1
      have h2 : chTouchId ch = some c.id := by
        rw [chTouchId, hcam]
        simp [camRollOutcome_id]
      rw [changesOf_cons_some _ _ _ hch, touchIds_cons_some _ _ _ h2, List.map_cons]
      exact List.Sublist.cons₂ _ (ih (i + 1))

theorem touchId_mem_ids (p : List NvrDevice) (now : Nat) (h st : Nat → Bool)
    (cams : List Camera) (i : Nat) (cid : String)
    (hmem : cid ∈ touchIds (changesOf (rollCameras p now h st i cams))) :
    cid ∈ cams.map (fun c => c.id) :=
  (touchIds_rollCameras_sublist p now h st cams i).mem hmem

theorem rollCameras_none_not_touched (p : List NvrDevice) (now : Nat) (h st : Nat → Bool) :
    ∀ (cams : List Camera) (i : Nat),
      (cams.map (fun c => c.id)).Nodup →
      ∀ o ∈ rollCameras p now h st i cams, o.2.1 = none →
        o.1.id ∉ touchIds (changesOf (rollCameras p now h st i cams)) := by
  intro cams
  induction cams with
  | nil => intro i _ o ho; cases ho
  | cons c cs ih =>
    intro i hnd o ho hnone
    rw [List.map_cons, List.nodup_cons] at hnd
    rw [rollCameras_cons] at ho
    rcases List.mem_cons.1 ho with h1 | h1
    · -- o is the head outcome; its change is none so the head contributes no touch id
      have hid : o.1.id = c.id := by rw [h1, camRollOutcome_id]
      have hh : (camRollOutcome p now (h i) (st i) c).2.1 = none := by rw [← h1]; exact hnone
      rw [rollCameras_cons, changesOf_cons_none _ _ hh, hid]
      intro hmem
      exact hnd.1 (touchId_mem_ids p now h st cs (i + 1) c.id hmem)
    · -- o comes from the tail
      have htail := ih (i + 1) hnd.2 o h1 hnone
      have hidmem : o.1.id ∈ cs.map (fun c => c.id) := by
        obtain ⟨j, c2, hc2, he⟩ := mem_rollCameras p now h st cs (i + 1) o h1
        rw [he, camRollOutcome_id]
        exact List.mem_map_of_mem _ hc2
      rw [rollCameras_cons]
      cases hch : (camRollOutcome p now (h i) (st i) c).2.1 with
      | none => rw [changesOf_cons_none _ _ hch]; exact htail
      | some ch =>
        have hcam := (camRollOutcome_change p now (h i) (st i) c ch hch).1
        have h2 : chTouchId ch = some c.id := by
          rw [chTouchId, hcam]
          simp [camRollOutcome_id]
        rw [changesOf_cons_some _ _ _ hch, touchIds_cons_some _ _ _ h2]
        intro hmem
        rcases List.mem_cons.1 hmem with he | he
        · exact hnd.1 (he ▸ hidmem)
        · exact htail he

theorem rollCameras_fail_online (p : List NvrDevice) (now : Nat) (h st : Nat → Bool) :
    ∀ (cams : List Camera) (i : Nat) (cid : String),
      cid ∈ failIds (changesOf (rollCameras p now h st i cams)) →
      ∃ c ∈ cams, c.id = cid ∧ c.isOnline = true := by
  intro cams
  induction cams with
  | nil => intro i cid hmem; simp [rollCameras_nil, changesOf, failIds] at hmem
  | cons c cs ih =>
    intro i cid hmem
    rw [rollCameras_cons] at hmem
    cases hch : (camRollOutcome p now (h i) (st i) c).2.1 with
    | none =>
      rw [changesOf_cons_none _ _ hch] at hmem
      obtain ⟨c2, hc2, he⟩ := ih (i + 1) cid hmem
      exact ⟨c2, List.mem_cons_of_mem c hc2, he⟩
    | some ch =>
      rw [changesOf_cons_some _ _ _ hch] at hmem
      rw [failIds, List.filterMap_cons] at hmem
      rcases camRollOutcome_change p now (h i) (st i) c ch hch with ⟨hcam, hrep | hfail⟩
      · -- REPAIR head contributes nothing to failIds
        rw [hrep.1] at hmem
        cases hc : ch.camera with
        | none => rw [hc] at hmem
                  obtain ⟨c2, hc2, he⟩ := ih (i + 1) cid hmem
                  exact ⟨c2, List.mem_cons_of_mem c hc2, he⟩
        | some cc => rw [hc] at hmem
                     obtain ⟨c2, hc2, he⟩ := ih (i + 1) cid hmem
                     exact ⟨c2, List.mem_cons_of_mem c hc2, he⟩
      · -- FAILURE head: its id is c.id and c was online
        rw [hfail.1, hcam] at hmem
        simp only [List.mem_cons] at hmem
        rcases hmem with he | hmem2
        · refine ⟨c, List.mem_cons_self c cs, ?_, hfail.2.1⟩
          rw [he, camRollOutcome_id]
        · obtain ⟨c2, hc2, he⟩ := ih (i + 1) cid hmem2
          exact ⟨c2, List.mem_cons_of_mem c hc2, he⟩

theorem rollCameras_no_nvr_failure (p : List NvrDevice) (now : Nat) (h st : Nat → Bool)
    (cams : List Camera) (i : Nat) :
    (changesOf (rollCameras p now h st i cams)).filter
      (fun c => c.type == ChangeType.NVR_FAILURE) = [] := by
  rw [List.filter_eq_nil]
  intro ch hch
  obtain ⟨o, ho, hsome⟩ := (mem_changesOf _ ch).1 hch
  obtain ⟨j, c, _, he⟩ := mem_rollCameras p now h st cams i o ho
  rw [he] at hsome
  rcases (camRollOutcome_change p now (h j) (st j) c ch hsome).2 with hrep | hfail
  · rw [hrep.1]; simp
  · rw [hfail.1]; simp

/-! ### The fault-sync fold -/

theorem applyChange_eq_acc (now : Nat) (g : Nat → String) (acc : List FaultRecord × Nat)
    (ch : Change) (h : ch.type = ChangeType.NVR_FAILURE ∨ ch.camera = none) :
    applyChange now g acc ch = acc := by
  rcases h with h | h
  · cases hcam : ch.camera <;> simp [applyChange, h, hcam]
  · cases htype : ch.type <;> simp [applyChange, h, htype]

theorem applyChange_repair (now : Nat) (g : Nat → String) (acc : List FaultRecord × Nat)
    (ch : Change) (cam : Camera) (h1 : ch.type = ChangeType.REPAIR)
    (h2 : ch.camera = some cam) :
    applyChange now g acc ch = (closeOpenFaults acc.1 cam.id now, acc.2) := by
  simp [applyChange, h1, h2]

theorem applyChange_failure (now : Nat) (g : Nat → String) (acc : List FaultRecord × Nat)
    (ch : Change) (cam : Camera) (h1 : ch.type = ChangeType.FAILURE)
    (h2 : ch.camera = some cam) :
    applyChange now g acc ch = (acc.1 ++ [newFaultFor cam now (g acc.2)], acc.2 + 1) := by
  simp [applyChange, h1, h2]

theorem failIds_cons_failure (ch : Change) (l : List Change) (cam : Camera)
    (h1 : ch.type = ChangeType.FAILURE) (h2 : ch.camera = some cam) :
    failIds (ch :: l) = cam.id :: failIds l := by
  simp [failIds, List.filterMap_cons, h1, h2]

theorem failIds_cons_repair (ch : Change) (l : List Change)
    (h1 : ch.type = ChangeType.REPAIR) : failIds (ch :: l) = failIds l := by
  cases h2 : ch.camera <;> simp [failIds, List.filterMap_cons, h1, h2]

theorem failIds_cons_nvr (ch : Change) (l : List Change)
    (h1 : ch.type = ChangeType.NVR_FAILURE) : failIds (ch :: l) = failIds l := by
  cases h2 : ch.camera <;> simp [failIds, List.filterMap_cons, h1, h2]

theorem openFaultsFor_append_newFault_self (fs : List FaultRecord) (cam : Camera)
    (now : Nat) (fid : String) :
    openFaultsFor (fs ++ [newFaultFor cam now fid]) cam.id =
      openFaultsFor fs cam.id ++ [newFaultFor cam now fid] := by
  rw [openFaultsFor_append, openFaultsFor_cons, if_pos]
  · rfl
  · simp [isOpenFor_newFault]

theorem openFaultsFor_append_newFault_other (fs : List FaultRecord) (cam : Camera)
    (cid : String) (hne : cam.id ≠ cid) (now : Nat) (fid : String) :
    openFaultsFor (fs ++ [newFaultFor cam now fid]) cid = openFaultsFor fs cid := by
  rw [openFaultsFor_append, openFaultsFor_cons, if_neg]
  · rw [openFaultsFor_nil, List.append_nil]
  · simp [isOpenFor_newFault, hne]

theorem applyChange_untouched (now : Nat) (g : Nat → String) (acc : List FaultRecord × Nat)
    (ch : Change) (cid : String) (h : chTouchId ch ≠ some cid) :
    openFaultsFor (applyChange now g acc ch).1 cid = openFaultsFor acc.1 cid := by
  cases htype : ch.type with
  | REPAIR =>
    cases hcam : ch.camera with
    | none => rw [applyChange_eq_acc now g acc ch (Or.inr hcam)]
    | some cc =>
      have hne : cid ≠ cc.id := by
        intro he
        exact h (by simp [chTouchId, hcam, he])
      rw [applyChange_repair now g acc ch cc htype hcam]
      exact openFaultsFor_close_other acc.1 cc.id cid hne now
  | FAILURE =>
    cases hcam : ch.camera with
    | none => rw [applyChange_eq_acc now g acc ch (Or.inr hcam)]
    | some cc =>
      have hne : cc.id ≠ cid := by
        intro he
        exact h (by simp [chTouchId, hcam, he])
      rw [applyChange_failure now g acc ch cc htype hcam]
      exact openFaultsFor_append_newFault_other acc.1 cc cid hne now (g acc.2)
  | NVR_FAILURE => rw [applyChange_eq_acc now g acc ch (Or.inl htype)]

theorem foldl_applyChange_untouched (now : Nat) (g : Nat → String) :
    ∀ (changes : List Change) (acc : List FaultRecord × Nat) (cid : String),
      (∀ ch ∈ changes, chTouchId ch ≠ some cid) →
      openFaultsFor (changes.foldl (applyChange now g) acc).1 cid =
        openFaultsFor acc.1 cid := by
  intro changes
  induction changes with
  | nil => intro acc cid _; rfl
  | cons ch rest ih =>
    intro acc cid h
    rw [List.foldl_cons,
      ih (applyChange now g acc ch) cid (fun ch2 h2 => h ch2 (List.mem_cons_of_mem ch h2))]
    exact applyChange_untouched now g acc ch cid (h ch (List.mem_cons_self ch rest))

theorem not_touched_of_not_mem (rest : List Change) (tid : String)
    (h : tid ∉ touchIds rest) : ∀ ch ∈ rest, chTouchId ch ≠ some tid := by
  intro ch hch he
  exact h ((mem_touchIds rest tid).2 ⟨ch, hch, he⟩)

theorem foldl_applyChange_invariant (now : Nat) (g : Nat → String) :
    ∀ (changes : List Change) (acc : List FaultRecord × Nat),
      (touchIds changes).Nodup →
      (∀ cid ∈ failIds changes, openFaultsFor acc.1 cid = []) →
      (∀ cid, (openFaultsFor acc.1 cid).length ≤ 1) →
      (∀ cid, (openFaultsFor (changes.foldl (applyChange now g) acc).1 cid).length ≤ 1) ∧
      (∀ ch ∈ changes, ch.type = ChangeType.REPAIR → ∀ cam : Camera,
          ch.camera = some cam →
          openFaultsFor (changes.foldl (applyChange now g) acc).1 cam.id = []) := by
  intro changes
  induction changes with
  | nil =>
    intro acc _ _ hlen
    exact ⟨fun cid => hlen cid, fun ch hch => absurd hch (List.not_mem_nil ch)⟩
  | cons ch rest ih =>
    intro acc hnd hfail hlen
    cases htype : ch.type with
    | REPAIR =>
      cases hcam : ch.camera with
      | none =>
        have hacc : applyChange now g acc ch = acc := applyChange_eq_acc now g acc ch (Or.inr hcam)
        have hnd2 : (touchIds rest).Nodup := by
          rwa [touchIds_cons_none ch rest (by rw [chTouchId, hcam]; rfl)] at hnd
        have hfail2 : ∀ cid ∈ failIds rest, openFaultsFor acc.1 cid = [] := by
          intro cid hc
          exact hfail cid (by rw [failIds_cons_repair ch rest htype]; exact hc)
        obtain ⟨ihl, ihr⟩ := ih acc hnd2 hfail2 hlen
        rw [List.foldl_cons, hacc]
        refine ⟨ihl, ?_⟩
        intro ch2 hch2 ht2 cam2 hcam2
        rcases List.mem_cons.1 hch2 with he | he
        · rw [he] at hcam2
          rw [hcam2] at hcam
          cases hcam
        · exact ihr ch2 he ht2 cam2 hcam2
      | some cam =>
        have hacc : applyChange now g acc ch = (closeOpenFaults acc.1 cam.id now, acc.2) :=
          applyChange_repair now g acc ch cam htype hcam
        have htch : chTouchId ch = some cam.id := by rw [chTouchId, hcam]; rfl
        rw [touchIds_cons_some ch rest cam.id htch, List.nodup_cons] at hnd
        have hfail2 : ∀ cid ∈ failIds rest,
            openFaultsFor (closeOpenFaults acc.1 cam.id now) cid = [] := by
          intro cid hc
          have hne : cid ≠ cam.id := by
            intro he
            exact hnd.1 (he ▸ failIds_subset_touchIds rest cid hc)
          rw [openFaultsFor_close_other acc.1 cam.id cid hne now]
          exact hfail cid (by rw [failIds_cons_repair ch rest htype]; exact hc)
        have hlen2 : ∀ cid,
            (openFaultsFor (closeOpenFaults acc.1 cam.id now) cid).length ≤ 1 := by
          intro cid
          by_cases he : cid = cam.id
          · rw [he, openFaultsFor_close_self]
            exact Nat.zero_le 1
          · rw [openFaultsFor_close_other acc.1 cam.id cid he now]
            exact hlen cid
        obtain ⟨ihl, ihr⟩ := ih (closeOpenFaults acc.1 cam.id now, acc.2) hnd.2 hfail2 hlen2
        rw [List.foldl_cons, hacc]
        refine ⟨ihl, ?_⟩
        intro ch2 hch2 ht2 cam2 hcam2
        rcases List.mem_cons.1 hch2 with he | he
        · -- the head REPAIR itself: its camera is cam
          have hcc : cam2 = cam := by
            rw [he] at hcam2
            rw [hcam2] at hcam
            exact (Option.some.injEq _ _ ▸ hcam :)
          rw [hcc]
          rw [foldl_applyChange_untouched now g rest _ cam.id
            (not_touched_of_not_mem rest cam.id hnd.1)]
          exact openFaultsFor_close_self acc.1 cam.id now
        · exact ihr ch2 he ht2 cam2 hcam2
    | FAILURE =>
      cases hcam : ch.camera with
      | none =>
        have hacc : applyChange now g acc ch = acc := applyChange_eq_acc now g acc ch (Or.inr hcam)
        have hnd2 : (touchIds rest).Nodup := by
          rwa [touchIds_cons_none ch rest (by rw [chTouchId, hcam]; rfl)] at hnd
        have hfailcons : failIds (ch :: rest) = failIds rest := by
          simp [failIds, List.filterMap_cons, htype, hcam]
        have hfail2 : ∀ cid ∈ failIds rest, openFaultsFor acc.1 cid = [] := by
          intro cid hc
          exact hfail cid (by rw [hfailcons]; exact hc)
        obtain ⟨ihl, ihr⟩ := ih acc hnd2 hfail2 hlen
        rw [List.foldl_cons, hacc]
        refine ⟨ihl, ?_⟩
        intro ch2 hch2 ht2 cam2 hcam2
        rcases List.mem_cons.1 hch2 with he | he
        · rw [he, htype] at ht2
          cases ht2
        · exact ihr ch2 he ht2 cam2 hcam2
      | some cam =>
        have hacc : applyChange now g acc ch =
            (acc.1 ++ [newFaultFor cam now (g acc.2)], acc.2 + 1) :=
          applyChange_failure now g acc ch cam htype hcam
        have htch : chTouchId ch = some cam.id := by rw [chTouchId, hcam]; rfl
        rw [touchIds_cons_some ch rest cam.id htch, List.nodup_cons] at hnd
        have hopen : openFaultsFor acc.1 cam.id = [] :=
          hfail cam.id (by
            rw [failIds_cons_failure ch rest cam htype hcam]
            exact List.mem_cons_self _ _)
        have hfail2 : ∀ cid ∈ failIds rest,
            openFaultsFor (acc.1 ++ [newFaultFor cam now (g acc.2)]) cid = [] := by
          intro cid hc
          have hne : cam.id ≠ cid := by
            intro he
            exact hnd.1 (he ▸ failIds_subset_touchIds rest cid hc)
          rw [openFaultsFor_append_newFault_other acc.1 cam cid hne now (g acc.2)]
          exact hfail cid (by
            rw [failIds_cons_failure ch rest cam htype hcam]
            exact List.mem_cons_of_mem _ hc)
        have hlen2 : ∀ cid,
            (openFaultsFor (acc.1 ++ [newFaultFor cam now (g acc.2)]) cid).length ≤ 1 := by
          intro cid
          by_cases he : cam.id = cid
          · rw [← he, openFaultsFor_append_newFault_self, hopen]
            exact Nat.le_refl 1
          · rw [openFaultsFor_append_newFault_other acc.1 cam cid he now (g acc.2)]
            exact hlen cid
        obtain ⟨ihl, ihr⟩ :=
          ih (acc.1 ++ [newFaultFor cam now (g acc.2)], acc.2 + 1) hnd.2 hfail2 hlen2
        rw [List.foldl_cons, hacc]
        refine ⟨ihl, ?_⟩
        intro ch2 hch2 ht2 cam2 hcam2
        rcases List.mem_cons.1 hch2 with he | he
        · rw [he, htype] at ht2
          cases ht2
        · exact ihr ch2 he ht2 cam2 hcam2
    | NVR_FAILURE =>
      have hacc : applyChange now g acc ch = acc := applyChange_eq_acc now g acc ch (Or.inl htype)
      have hnd2 : (touchIds rest).Nodup := by
        cases hcam : ch.camera with
        | none => rwa [touchIds_cons_none ch rest (by rw [chTouchId, hcam]; rfl)] at hnd
        | some cc =>
          rw [touchIds_cons_some ch rest cc.id (by rw [chTouchId, hcam]; rfl),
            List.nodup_cons] at hnd
          exact hnd.2
      have hfail2 : ∀ cid ∈ failIds rest, openFaultsFor acc.1 cid = [] := by
        intro cid hc
        exact hfail cid (by rw [failIds_cons_nvr ch rest htype]; exact hc)
      obtain ⟨ihl, ihr⟩ := ih acc hnd2 hfail2 hlen
      rw [List.foldl_cons, hacc]
      refine ⟨ihl, ?_⟩
      intro ch2 hch2 ht2 cam2 hcam2
      rcases List.mem_cons.1 hch2 with he | he
      · rw [he, htype] at ht2
        cases ht2
      · exact ihr ch2 he ht2 cam2 hcam2

theorem syncFaults_no_nvr (changes : List Change) (prevCameras : List Camera) (now : Nat)
    (g : Nat → String) (prevFaults : List FaultRecord)
    (h : changes.filter (fun c => c.type == ChangeType.NVR_FAILURE) = []) :
    syncFaults changes prevCameras now g prevFaults =
      (changes.foldl (applyChange now g) (prevFaults, 0)).1 := by
  simp only [syncFaults, h, List.foldl_nil]

/-! ### Reconciliation invariants -/

/-- Single open fault per camera id (spec §3/§8). -/
def SingleOpenFault (faults : List FaultRecord) : Prop :=
  ∀ cid : String, (openFaultsFor faults cid).length ≤ 1

/-- Every camera currently online has no open fault (the auxiliary
invariant that lets the tick's FAILURE branch push a fault without
checking). -/
def NoOpenWhenOnline (s : AppState) : Prop :=
  ∀ c ∈ s.cameras, c.isOnline = true → openFaultsFor s.faults c.id = []

/-- Camera ids are pairwise distinct. -/
def CamIdsNodup (s : AppState) : Prop := (s.cameras.map (fun c => c.id)).Nodup

/-- The conjunction of the reconciliation invariants. -/
def GoodState (s : AppState) : Prop :=
  SingleOpenFault s.faults ∧ NoOpenWhenOnline s ∧ CamIdsNodup s

/-! ### The per-camera phase, by branch -/

theorem rollCameras_no_recovery (p : List NvrDevice) (now : Nat) (h st : Nat → Bool)
    (cams : List Camera) (i : Nat)
    (hch : changesOf (rollCameras p now h st i cams) = []) :
    (rollCameras p now h st i cams).filter (fun o => o.2.2) = [] := by
  rw [changesOf] at hch
  rw [List.filter_eq_nil]
  intro o ho hflag
  have hnone : o.2.1 = none := List.filterMap_eq_nil.1 hch o ho
  obtain ⟨j, c, _, he⟩ := mem_rollCameras p now h st cams i o ho
  rw [he] at hflag hnone
  exact camRollOutcome_flagged p now (h j) (st j) c hflag hnone

theorem tickRecoveredNvrs_of_none (s : AppState)
    (outcomes : List (Camera × Option Change × Bool))
    (h : outcomes.filter (fun o => o.2.2) = []) :
    tickRecoveredNvrs s outcomes = s.nvrs := by
  rw [tickRecoveredNvrs, h]
  simp

theorem perCameraPhase_of_no_changes (s : AppState) (now : Nat) (d : TickDraws)
    (gF gA : Nat → String) (h : changesOf (tickOutcomes s now d) = []) :
    perCameraPhase s now d gF gA = (s, []) := by
  have hrec : (tickOutcomes s now d).filter (fun o => o.2.2) = [] := by
    rw [tickOutcomes] at h ⊢
    exact rollCameras_no_recovery s.nvrs now d.camHit d.camNvrStillDown s.cameras 0 h
  simp only [perCameraPhase, h, List.isEmpty_nil, if_true]
  rw [tickRecoveredNvrs_of_none s (tickOutcomes s now d) hrec]

theorem perCameraPhase_of_changes (s : AppState) (now : Nat) (d : TickDraws)
    (gF gA : Nat → String) (h : changesOf (tickOutcomes s now d) ≠ []) :
    perCameraPhase s now d gF gA =
      ({ s with
          cameras := (tickOutcomes s now d).map (fun o => o.1)
          nvrs := tickRecoveredNvrs s (tickOutcomes s now d)
          faults := syncFaults (changesOf (tickOutcomes s now d)) s.cameras now gF s.faults
          alerts := syncAlerts (changesOf (tickOutcomes s now d)) now gA s.alerts },
       changesOf (tickOutcomes s now d)) := by
  simp only [perCameraPhase]
  rw [if_neg]
  simp [List.isEmpty_iff, h]

theorem goodState_perCameraPhase (s : AppState) (now : Nat) (d : TickDraws)
    (gF gA : Nat → String) (hS : SingleOpenFault s.faults) (hN : NoOpenWhenOnline s)
    (hD : CamIdsNodup s) : GoodState (perCameraPhase s now d gF gA).1 := by
  by_cases hch : changesOf (tickOutcomes s now d) = []
  · rw [perCameraPhase_of_no_changes s now d gF gA hch]
    exact ⟨hS, hN, hD⟩
  · rw [perCameraPhase_of_changes s now d gF gA hch]
    have hnonvr : (changesOf (tickOutcomes s now d)).filter
        (fun c => c.type == ChangeType.NVR_FAILURE) = [] := by
      rw [tickOutcomes]
      exact rollCameras_no_nvr_failure s.nvrs now d.camHit d.camNvrStillDown s.cameras 0
    have hsf : syncFaults (changesOf (tickOutcomes s now d)) s.cameras now gF s.faults =
        ((changesOf (tickOutcomes s now d)).foldl (applyChange now gF) (s.faults, 0)).1 :=
      syncFaults_no_nvr _ _ _ _ _ hnonvr
    have hndT : (touchIds (changesOf (tickOutcomes s now d))).Nodup := by
      have hsub := touchIds_rollCameras_sublist s.nvrs now d.camHit d.camNvrStillDown
        s.cameras 0
      exact List.Nodup.sublist hsub hD
    have hfailT : ∀ cid ∈ failIds (changesOf (tickOutcomes s now d)),
        openFaultsFor s.faults cid = [] := by
      intro cid hc
      rw [tickOutcomes] at hc
      obtain ⟨c, hcmem, hcid, hon⟩ :=
        rollCameras_fail_online s.nvrs now d.camHit d.camNvrStillDown s.cameras 0 cid hc
      rw [← hcid]
      exact hN c hcmem hon
    obtain ⟨hlen', hrep'⟩ := foldl_applyChange_invariant now gF
      (changesOf (tickOutcomes s now d)) (s.faults, 0) hndT hfailT hS
    refine ⟨?_, ?_, ?_⟩
    · intro cid
      show (openFaultsFor
        (syncFaults (changesOf (tickOutcomes s now d)) s.cameras now gF s.faults) cid).length ≤ 1
      rw [hsf]
      exact hlen' cid
    · intro c' hc' hon
      have hc2 : c' ∈ (tickOutcomes s now d).map (fun o => o.1) := hc'
      obtain ⟨o, ho, he⟩ := List.mem_map.1 hc2
      have ho2 : o ∈ rollCameras s.nvrs now d.camHit d.camNvrStillDown 0 s.cameras := ho
      obtain ⟨j, c, hcmem, heo⟩ :=
        mem_rollCameras s.nvrs now d.camHit d.camNvrStillDown s.cameras 0 o ho2
      show openFaultsFor
        (syncFaults (changesOf (tickOutcomes s now d)) s.cameras now gF s.faults) c'.id = []
      rw [hsf]
      rcases camRollOutcome_cases s.nvrs now (d.camHit j) (d.camNvrStillDown j) c
        with hcase | ⟨hOff, hcase⟩ | ⟨hOn, hcase⟩
      · -- untouched camera: its faults are untouched by the fold
        have hnone : o.2.1 = none := by rw [heo, hcase]
        have hfst : o.1 = c := by rw [heo, hcase]
        have hnt := rollCameras_none_not_touched s.nvrs now d.camHit d.camNvrStillDown
          s.cameras 0 hD o ho2 hnone
        rw [he] at hnt
        have hnt2 : c'.id ∉ touchIds (changesOf (tickOutcomes s now d)) := by
          rw [tickOutcomes]
          exact hnt
        rw [foldl_applyChange_untouched now gF _ _ _ (not_touched_of_not_mem _ _ hnt2)]
        have hcc : c = c' := by rw [← hfst, he]
        rw [← hcc] at hon
        rw [← hcc]
        exact hN c hcmem hon
      · -- repaired camera: the fold closed its open faults
        have hsome : o.2.1 = some { type := ChangeType.REPAIR, camera := some (repairedCam c now) } := by
          rw [heo, hcase]
        have hchm : ({ type := ChangeType.REPAIR, camera := some (repairedCam c now) } : Change) ∈ changesOf (tickOutcomes s now d) :=
          (mem_changesOf _ _).2 ⟨o, ho, hsome⟩
        have hfst : o.1 = repairedCam c now := by rw [heo, hcase]
        rw [← he, hfst]
        exact hrep' _ hchm rfl (repairedCam c now) rfl
      · -- failed camera cannot be online
        have hfst : o.1 = failedCam c now := by rw [heo, hcase]
        rw [← he, hfst] at hon
        simp [failedCam] at hon
    · show ((((tickOutcomes s now d).map (fun o => o.1)).map (fun c => c.id))).Nodup
      rw [List.map_map]
      have : ((fun c : Camera => c.id) ∘ fun o : Camera × Option Change × Bool => o.1) =
          fun o : Camera × Option Change × Bool => o.1.id := rfl
      rw [this, tickOutcomes,
        rollCameras_fst_ids s.nvrs now d.camHit d.camNvrStillDown s.cameras 0]
      exact hD

theorem goodState_tick (s : AppState) (now : Nat) (d : TickDraws) (gF gA : Nat → String)
    (hG : GoodState s) : GoodState (tick s now d gF gA) := by
  obtain ⟨hS, hN, hD⟩ := hG
  rw [tick, tickResult]
  cases hT : nvrFailTargetOf s d with
  | some t =>
    simp only []
    refine ⟨hS, ?_, ?_⟩
    · intro c' hc' hon
      have hc2 : c' ∈ s.cameras.map (fun c =>
          if c.nvrId == t then
            { c with isOnline := false, isRecording := false, statusChangedAt := now }
          else c) := hc'
      obtain ⟨c, hc, he⟩ := List.mem_map.1 hc2
      by_cases hnvr : (c.nvrId == t) = true
      · rw [if_pos hnvr] at he
        rw [← he] at hon
        simp at hon
      · rw [if_neg hnvr] at he
        rw [← he] at hon ⊢
        exact hN c hc hon
    · show ((s.cameras.map (fun c =>
          if c.nvrId == t then
            { c with isOnline := false, isRecording := false, statusChangedAt := now }
          else c)).map (fun c => c.id)).Nodup
      rw [List.map_map]
      have hcg : ∀ c ∈ s.cameras, ((fun c : Camera => c.id) ∘ fun c : Camera =>
          if c.nvrId == t then
            { c with isOnline := false, isRecording := false, statusChangedAt := now }
          else c) c = (fun c : Camera => c.id) c := by
        intro c _
        by_cases hnvr : (c.nvrId == t) = true
        · simp [Function.comp, hnvr]
        · simp [Function.comp, hnvr]
      rw [List.map_congr_left hcg]
      exact hD
  | none =>
    exact goodState_perCameraPhase s now d gF gA hS hN hD

theorem goodState_handleReconnect (s : AppState) (cid : String) (now : Nat)
    (hG : GoodState s) : GoodState (handleReconnect s cid now) := by
  obtain ⟨hS, hN, hD⟩ := hG
  refine ⟨?_, ?_, ?_⟩
  · intro cid'
    show (openFaultsFor (closeOpenFaults s.faults cid now) cid').length ≤ 1
    by_cases he : cid' = cid
    · rw [he, openFaultsFor_close_self]
      exact Nat.zero_le 1
    · rw [openFaultsFor_close_other s.faults cid cid' he now]
      exact hS cid'
  · intro c' hc' hon
    have hc2 : c' ∈ s.cameras.map (fun c =>
        if c.id == cid then
          { c with isOnline := true, isRecording := true, statusChangedAt := now }
        else c) := hc'
    obtain ⟨c, hc, he⟩ := List.mem_map.1 hc2
    show openFaultsFor (closeOpenFaults s.faults cid now) c'.id = []
    by_cases hid : (c.id == cid) = true
    · rw [if_pos hid] at he
      have hcid : c'.id = cid := by
        rw [← he]
        exact beq_iff_eq.1 hid
      rw [hcid]
      exact openFaultsFor_close_self s.faults cid now
    · rw [if_neg hid] at he
      have hne : c'.id ≠ cid := by
        rw [← he]
        intro hh
        exact hid (by simp [hh])
      rw [openFaultsFor_close_other s.faults cid c'.id hne now]
      rw [← he] at hon ⊢
      exact hN c hc hon
  · show ((s.cameras.map (fun c =>
        if c.id == cid then
          { c with isOnline := true, isRecording := true, statusChangedAt := now }
        else c)).map (fun c => c.id)).Nodup
    rw [List.map_map]
    have hcg : ∀ c ∈ s.cameras,
        ((fun c2 : Camera => c2.id) ∘ fun c2 : Camera =>
          if c2.id == cid then
            { c2 with isOnline := true, isRecording := true, statusChangedAt := now }
          else c2) c = (fun c2 : Camera => c2.id) c := by
      intro c _
      by_cases hid : (c.id == cid) = true
      · simp [Function.comp, hid]
      · simp [Function.comp, hid]
    rw [List.map_congr_left hcg]
    exact hD

theorem goodState_executeDeleteNvr (s : AppState) (nid : String) (now : Nat) (aid : String)
    (hG : GoodState s) : GoodState (executeDeleteNvr s nid now aid) := by
  obtain ⟨hS, hN, hD⟩ := hG
  refine ⟨hS, ?_, ?_⟩
  · intro c' hc' hon
    have hc2 : c' ∈ s.cameras.filter (fun c => c.nvrId != nid) := hc'
    exact hN c' (List.mem_filter.1 hc2).1 hon
  · show ((s.cameras.filter (fun c => c.nvrId != nid)).map (fun c => c.id)).Nodup
    exact List.Nodup.sublist (List.Sublist.map _ (List.filter_sublist s.cameras)) hD

/-! ### The add-NVR path and the invariants -/

theorem mkOpenFaults_nil (g : Nat → String) (now : Nat) (k : Nat) :
    mkOpenFaults g now [] k = [] := rfl

theorem mkOpenFaults_cons (g : Nat → String) (now : Nat) (c : Camera) (cs : List Camera)
    (k : Nat) :
    mkOpenFaults g now (c :: cs) k = newFaultFor c now (g k) :: mkOpenFaults g now cs (k + 1) := rfl

theorem mem_mkNewCameras_flags (form : NvrForm) (nid : String) (now : Nat)
    (camIds : Nat → String) (isSuccess : Bool) (c : Camera)
    (h : c ∈ mkNewCameras form nid now camIds isSuccess) :
    c.isOnline = isSuccess ∧ c.isRecording = isSuccess := by
  rw [mkNewCameras] at h
  obtain ⟨j, _, he⟩ := List.mem_map.1 h
  rw [← he]
  exact ⟨rfl, rfl⟩

theorem openFaultsFor_mkOpenFaults (g : Nat → String) (now : Nat) :
    ∀ (cams : List Camera) (k : Nat) (cid : String),
      (openFaultsFor (mkOpenFaults g now cams k) cid).length =
        (cams.filter (fun c => c.id == cid)).length := by
  intro cams
  induction cams with
  | nil => intro k cid; rfl
  | cons c cs ih =>
    intro k cid
    rw [mkOpenFaults_cons, openFaultsFor_cons, List.filter_cons]
    by_cases hid : (c.id == cid) = true
    · rw [if_pos (by rw [isOpenFor_newFault]; exact hid), if_pos hid]
      simp [ih (k + 1) cid]
    · rw [if_neg (by rw [isOpenFor_newFault]; exact hid), if_neg hid]
      exact ih (k + 1) cid

theorem filter_id_length_le_one (cams : List Camera)
    (h : (cams.map (fun c => c.id)).Nodup) (cid : String) :
    (cams.filter (fun c => c.id == cid)).length ≤ 1 := by
  induction cams with
  | nil => exact Nat.zero_le 1
  | cons c cs ih =>
    rw [List.map_cons, List.nodup_cons] at h
    rw [List.filter_cons]
    by_cases hid : (c.id == cid) = true
    · rw [if_pos hid]
      have hcid : c.id = cid := beq_iff_eq.1 hid
      have hnil : cs.filter (fun c2 => c2.id == cid) = [] := by
        rw [List.filter_eq_nil]
        intro c2 hc2 hbe
        have hcc : c2.id = c.id := by rw [beq_iff_eq.1 hbe, hcid]
        exact h.1 (by rw [← hcc]; exact List.mem_map_of_mem _ hc2)
      rw [hnil]
      exact Nat.le_refl 1
    · rw [if_neg hid]
      exact ih h.2

theorem exists_id_of_filter_ne_nil (cams : List Camera) (cid : String)
    (h : cams.filter (fun c => c.id == cid) ≠ []) :
    ∃ c ∈ cams, c.id = cid := by
  obtain ⟨c, hc⟩ := List.exists_mem_of_ne_nil _ h
  have := List.mem_filter.1 hc
  exact ⟨c, this.1, beq_iff_eq.1 this.2⟩

theorem goodState_handleSaveNvrAdd (s : AppState) (form : NvrForm) (r : Bool) (now : Nat)
    (randSeg : String) (camIds : Nat → String) (gF : Nat → String) (aid : String)
    (hG : GoodState s)
    (hN2 : ((mkNewCameras form (newNvrIdOf form randSeg) now camIds
        (isValidAuth form && r)).map (fun c => c.id)).Nodup)
    (hD2 : ∀ c ∈ mkNewCameras form (newNvrIdOf form randSeg) now camIds
        (isValidAuth form && r), c.id ∉ s.cameras.map (fun c2 => c2.id))
    (hF2 : ∀ c ∈ mkNewCameras form (newNvrIdOf form randSeg) now camIds
        (isValidAuth form && r), openFaultsFor s.faults c.id = []) :
    GoodState (handleSaveNvrAdd s form r now randSeg camIds gF aid) := by
  obtain ⟨hS, hN, hD⟩ := hG
  by_cases hv : (!formValid form) = true
  · have hXeq : handleSaveNvrAdd s form r now randSeg camIds gF aid = s := by
      unfold handleSaveNvrAdd
      rw [if_pos hv]
    rw [hXeq]
    exact ⟨hS, hN, hD⟩
  · have hcam : (handleSaveNvrAdd s form r now randSeg camIds gF aid).cameras =
        s.cameras ++ mkNewCameras form (newNvrIdOf form randSeg) now camIds
          (isValidAuth form && r) := by
      unfold handleSaveNvrAdd
      rw [if_neg hv]
    have hfl : (handleSaveNvrAdd s form r now randSeg camIds gF aid).faults =
        (if isValidAuth form && r then s.faults
         else s.faults ++ mkOpenFaults gF now (mkNewCameras form (newNvrIdOf form randSeg)
           now camIds (isValidAuth form && r)) 0) := by
      unfold handleSaveNvrAdd
      rw [if_neg hv]
    refine ⟨?_, ?_, ?_⟩
    · intro cid
      rw [hfl]
      by_cases hsucc : (isValidAuth form && r) = true
      · rw [if_pos hsucc]
        exact hS cid
      · rw [if_neg hsucc, openFaultsFor_append, List.length_append,
          openFaultsFor_mkOpenFaults]
        by_cases hz : (mkNewCameras form (newNvrIdOf form randSeg) now camIds
            (isValidAuth form && r)).filter (fun c => c.id == cid) = []
        · rw [hz]
          simpa using hS cid
        · obtain ⟨c, hcm, hcid⟩ := exists_id_of_filter_ne_nil _ cid hz
          have hold : openFaultsFor s.faults cid = [] := by
            rw [← hcid]
            exact hF2 c hcm
          rw [hold]
          simpa using filter_id_length_le_one _ hN2 cid
    · intro c' hc' hon
      rw [hfl]
      have hc2 : c' ∈ s.cameras ++ mkNewCameras form (newNvrIdOf form randSeg) now camIds
          (isValidAuth form && r) := by
        rw [← hcam]
        exact hc'
      rcases List.mem_append.1 hc2 with hmem | hmem
      · have hold : openFaultsFor s.faults c'.id = [] := hN c' hmem hon
        by_cases hsucc : (isValidAuth form && r) = true
        · rw [if_pos hsucc]
          exact hold
        · rw [if_neg hsucc, openFaultsFor_append, hold]
          have hzlen : (openFaultsFor (mkOpenFaults gF now (mkNewCameras form
              (newNvrIdOf form randSeg) now camIds (isValidAuth form && r)) 0)
              c'.id).length = 0 := by
            rw [openFaultsFor_mkOpenFaults]
            rw [List.length_eq_zero, List.filter_eq_nil]
            intro c hcm hbe
            exact hD2 c hcm (by
              rw [beq_iff_eq.1 hbe]
              exact List.mem_map_of_mem _ hmem)
          rw [List.length_eq_zero.1 hzlen]
          rfl
      · have hflag := mem_mkNewCameras_flags _ _ _ _ _ c' hmem
        have hsucc : (isValidAuth form && r) = true := by
          rw [← hflag.1]
          exact hon
        rw [if_pos hsucc]
        exact hF2 c' hmem
    · show (((handleSaveNvrAdd s form r now randSeg camIds gF aid).cameras).map
        (fun c => c.id)).Nodup
      rw [hcam, List.map_append, List.nodup_append]
      refine ⟨hD, hN2, ?_⟩
      intro a ha hb
      obtain ⟨c, hcm, hcid⟩ := List.mem_map.1 hb
      exact hD2 c hcm (by rw [hcid]; exact ha)

/-! ### C2 — single open fault per camera -/

/-- One application-state operation among: a simulation tick, a manual
reconnect, an NVR deletion, or an NVR addition whose freshly generated
camera ids are pairwise distinct, unused by existing cameras, and without
existing open faults (as the random `generateId()` values are in
practice).  The NVR edit path is deliberately not included: the C2
counterexample shows it breaks the single-open-fault invariant. -/
inductive OpStep : AppState → AppState → Prop
  | tickStep (s : AppState) (now : Nat) (d : TickDraws) (gF gA : Nat → String) :
      OpStep s (tick s now d gF gA)
  | reconnectStep (s : AppState) (cid : String) (now : Nat) :
      OpStep s (handleReconnect s cid now)
  | deleteStep (s : AppState) (nid : String) (now : Nat) (aid : String) :
      OpStep s (executeDeleteNvr s nid now aid)
  | addStep (s : AppState) (form : NvrForm) (r : Bool) (now : Nat) (randSeg : String)
      (camIds : Nat → String) (gF : Nat → String) (aid : String)
      (hN2 : ((mkNewCameras form (newNvrIdOf form randSeg) now camIds
          (isValidAuth form && r)).map (fun c => c.id)).Nodup)
      (hD2 : ∀ c ∈ mkNewCameras form (newNvrIdOf form randSeg) now camIds
          (isValidAuth form && r), c.id ∉ s.cameras.map (fun c2 => c2.id))
      (hF2 : ∀ c ∈ mkNewCameras form (newNvrIdOf form randSeg) now camIds
          (isValidAuth form && r), openFaultsFor s.faults c.id = []) :
      OpStep s (handleSaveNvrAdd s form r now randSeg camIds gF aid)

theorem goodState_opStep (s s' : AppState) (h : OpStep s s') (hG : GoodState s) :
    GoodState s' := by
  cases h with
  | tickStep now d gF gA => exact goodState_tick s now d gF gA hG
  | reconnectStep cid now => exact goodState_handleReconnect s cid now hG
  | deleteStep nid now aid => exact goodState_executeDeleteNvr s nid now aid hG
  | addStep form r now randSeg camIds gF aid hN2 hD2 hF2 =>
      exact goodState_handleSaveNvrAdd s form r now randSeg camIds gF aid hG hN2 hD2 hF2

/-- C2 amended: starting from any state satisfying the reconciliation
invariants (single open fault per camera, no open fault for an online
camera, distinct camera ids), every state reachable by any sequence of
simulation ticks, manual reconnects, NVR deletions, and NVR additions
with fresh generated camera ids has at most one open FaultRecord per
camera.  (The full claim, which also allows NVR edits, fails on
the code: a successful NVR edit re-onlines cameras without
closing their open faults, and a later failure roll then opens a second
fault.) -/
theorem c2_single_open_fault_reachable (s0 s : AppState) (h0 : GoodState s0)
    (h : Relation.ReflTransGen OpStep s0 s) : SingleOpenFault s.faults := by
  have hG : GoodState s := by
    induction h with
    | refl => exact h0
    | tail hab hbc ih => exact goodState_opStep _ _ hbc ih
  exact hG.1

/-- An id generator standing in for `generateId()` in executable tests. -/
def gid (n : Nat) : String := "id-" ++ toString n

/-- Draws where every per-camera roll hits (repair when offline, failure
when online) and no NVR-wide failure fires. -/
def drawsHit : TickDraws :=
  { nvrFailRoll := false, nvrTargetIdx := 0, camHit := fun _ => true,
    camNvrStillDown := fun _ => false }

/-- A clean one-NVR, one-camera state with no faults. -/
def baseState : AppState :=
  { cameras := [cam1], nvrs := [nvr1], users := [], faults := [], alerts := [],
    liveCameraIds := ["c1"] }

/-- A valid edit form with the accepted credentials. -/
def editFormOk : NvrForm :=
  { name := "", ip := "10.0.0.1", port := "8000", username := "admin",
    password := "12345", protocol := "ONVIF" }

/-- The state after: tick (camera fails, opening a fault), successful NVR
edit (camera set online, fault left open), tick (camera fails again,
opening a second fault). -/
def c2SeqState : AppState :=
  tick (handleSaveNvrEdit (tick baseState 5 drawsHit gid gid) "N1" editFormOk true 6 "a9")
    7 drawsHit gid gid

/-- C2 counterexample: after the operation sequence tick, successful NVR
edit, tick — all operations the claim ranges over — camera `"c1"` has two
FaultRecords with `timeOn` undefined, so the single-open-fault invariant
fails on the code as soon as NVR edits participate. -/
theorem c2_counterexample : (openFaultsFor c2SeqState.faults "c1").length = 2 := by decide

/-- The clean concrete state satisfies the reconciliation invariants. -/
theorem baseState_good : GoodState baseState := by
  refine ⟨fun cid => ?_, fun c hc hon => rfl, ?_⟩
  · show (openFaultsFor [] cid).length ≤ 1
    exact Nat.zero_le 1
  · show (baseState.cameras.map (fun c => c.id)).Nodup
    decide

/-- C2 witness: the amended theorem applied to the concrete clean state
with the empty operation sequence. -/
theorem c2_witness : GoodState baseState ∧ SingleOpenFault baseState.faults :=
  ⟨baseState_good,
   c2_single_open_fault_reachable baseState baseState baseState_good
     Relation.ReflTransGen.refl⟩

/-! ### C3 — recording implies online -/

/-- Invariant: every recording camera is online. -/
def RecOnline (s : AppState) : Prop :=
  ∀ c ∈ s.cameras, c.isRecording = true → c.isOnline = true

theorem recOnline_tick (s : AppState) (now : Nat) (d : TickDraws) (gF gA : Nat → String)
    (h : RecOnline s) : RecOnline (tick s now d gF gA) := by
  rw [tick, tickResult]
  cases hT : nvrFailTargetOf s d with
  | some t =>
    intro c' hc' hrec
    have hc2 : c' ∈ s.cameras.map (fun c =>
        if c.nvrId == t then
          { c with isOnline := false, isRecording := false, statusChangedAt := now }
        else c) := hc'
    obtain ⟨c, hc, he⟩ := List.mem_map.1 hc2
    by_cases hnvr : (c.nvrId == t) = true
    · rw [if_pos hnvr] at he
      rw [← he] at hrec
      simp at hrec
    · rw [if_neg hnvr] at he
      rw [← he] at hrec ⊢
      exact h c hc hrec
  | none =>
    by_cases hch : changesOf (tickOutcomes s now d) = []
    · rw [perCameraPhase_of_no_changes s now d gF gA hch]
      exact h
    · rw [perCameraPhase_of_changes s now d gF gA hch]
      intro c' hc' hrec
      have hc2 : c' ∈ (tickOutcomes s now d).map (fun o => o.1) := hc'
      obtain ⟨o, ho, he⟩ := List.mem_map.1 hc2
      obtain ⟨j, c, hcmem, heo⟩ :=
        mem_rollCameras s.nvrs now d.camHit d.camNvrStillDown s.cameras 0 o ho
      rcases camRollOutcome_cases s.nvrs now (d.camHit j) (d.camNvrStillDown j) c
        with hcase | ⟨_, hcase⟩ | ⟨_, hcase⟩
      · have hfst : o.1 = c := by rw [heo, hcase]
        rw [← he, hfst] at hrec ⊢
        exact h c hcmem hrec
      · have hfst : o.1 = repairedCam c now := by rw [heo, hcase]
        rw [← he, hfst]
        rfl
      · have hfst : o.1 = failedCam c now := by rw [heo, hcase]
        rw [← he, hfst] at hrec
        simp [failedCam] at hrec

theorem recOnline_handleReconnect (s : AppState) (cid : String) (now : Nat)
    (h : RecOnline s) : RecOnline (handleReconnect s cid now) := by
  intro c' hc' hrec
  have hc2 : c' ∈ s.cameras.map (fun c =>
      if c.id == cid then
        { c with isOnline := true, isRecording := true, statusChangedAt := now }
      else c) := hc'
  obtain ⟨c, hc, he⟩ := List.mem_map.1 hc2
  by_cases hid : (c.id == cid) = true
  · rw [if_pos hid] at he
    rw [← he]
  · rw [if_neg hid] at he
    rw [← he] at hrec ⊢
    exact h c hc hrec

theorem recOnline_executeDeleteNvr (s : AppState) (nid : String) (now : Nat) (aid : String)
    (h : RecOnline s) : RecOnline (executeDeleteNvr s nid now aid) := by
  intro c' hc' hrec
  have hc2 : c' ∈ s.cameras.filter (fun c => c.nvrId != nid) := hc'
  exact h c' (List.mem_filter.1 hc2).1 hrec

theorem recOnline_handleSaveNvrAdd (s : AppState) (form : NvrForm) (r : Bool) (now : Nat)
    (randSeg : String) (camIds : Nat → String) (gF : Nat → String) (aid : String)
    (h : RecOnline s) : RecOnline (handleSaveNvrAdd s form r now randSeg camIds gF aid) := by
  by_cases hv : (!formValid form) = true
  · have hXeq : handleSaveNvrAdd s form r now randSeg camIds gF aid = s := by
      unfold handleSaveNvrAdd
      rw [if_pos hv]
    rw [hXeq]
    exact h
  · have hcam : (handleSaveNvrAdd s form r now randSeg camIds gF aid).cameras =
        s.cameras ++ mkNewCameras form (newNvrIdOf form randSeg) now camIds
          (isValidAuth form && r) := by
      unfold handleSaveNvrAdd
      rw [if_neg hv]
    intro c' hc' hrec
    rw [hcam] at hc'
    rcases List.mem_append.1 hc' with hmem | hmem
    · exact h c' hmem hrec
    · have hflag := mem_mkNewCameras_flags _ _ _ _ _ c' hmem
      rw [hflag.1, ← hflag.2]
      exact hrec

/-- C3 amended: `isRecording ⟹ isOnline` is preserved by every simulation
tick, manual reconnect, NVR deletion, and NVR addition.  (The full claim,
which also covers NVR edits, fails on the code: the edit-failure path sets `isOnline: false` without clearing `isRecording`.) -/
theorem c3_recording_implies_online (s : AppState) (h : RecOnline s) (now : Nat)
    (d : TickDraws) (gF gA : Nat → String) (cid : String) (nid : String) (aid : String)
    (form : NvrForm) (r : Bool) (randSeg : String) (camIds : Nat → String) :
    RecOnline (tick s now d gF gA) ∧ RecOnline (handleReconnect s cid now) ∧
    RecOnline (executeDeleteNvr s nid now aid) ∧
    RecOnline (handleSaveNvrAdd s form r now randSeg camIds gF aid) :=
  ⟨recOnline_tick s now d gF gA h, recOnline_handleReconnect s cid now h,
   recOnline_executeDeleteNvr s nid now aid h,
   recOnline_handleSaveNvrAdd s form r now randSeg camIds gF aid h⟩

/-- An edit form with a wrong password (auth check fails). -/
def badEditForm : NvrForm :=
  { name := "", ip := "10.0.0.1", port := "8000", username := "admin",
    password := "wrong", protocol := "ONVIF" }

/-- C3 counterexample: an NVR edit whose credentials check fails sets its
cameras `isOnline: false` but leaves `isRecording` untouched, so a camera
that was recording ends up with `isRecording = true` and `isOnline =
false` — the claimed invariant fails after this manual action. -/
theorem c3_counterexample :
    ((handleSaveNvrEdit baseState "N1" badEditForm true 6 "a1").cameras.any
      (fun c => c.isRecording && !c.isOnline)) = true := by decide

/-- The clean concrete state satisfies `RecOnline`. -/
theorem baseState_recOnline : RecOnline baseState := by
  show ∀ c ∈ baseState.cameras, c.isRecording = true → c.isOnline = true
  decide

/-- C3 witness: the amended theorem applied to the concrete clean state. -/
theorem c3_witness :
    RecOnline baseState ∧
    (RecOnline (tick baseState 5 drawsHit gid gid) ∧
      RecOnline (handleReconnect baseState "c1" 5) ∧
      RecOnline (executeDeleteNvr baseState "N1" 5 "a1") ∧
      RecOnline (handleSaveNvrAdd baseState editFormOk true 5 "7" gid gid "a2")) :=
  ⟨baseState_recOnline,
   c3_recording_implies_online baseState baseState_recOnline 5 drawsHit gid gid "c1" "N1"
     "a2" editFormOk true "7" gid⟩

/-! ### C7 — idempotence of no-op ticks -/

/-- C7: if a tick's draws produce zero transitions (the tick's `changes`
array is empty), the entire application state — cameras, NVRs, faults,
alerts, users, and live view — is returned unchanged (the camera callback
returns `prevCameras` itself, and the fault/alert syncs do not run). -/
theorem c7_noop_tick (s : AppState) (now : Nat) (d : TickDraws) (gF gA : Nat → String)
    (h : tickChanges s now d gF gA = []) : tick s now d gF gA = s := by
  cases hT : nvrFailTargetOf s d with
  | some t =>
    exfalso
    rw [tickChanges, tickResult, hT] at h
    simp at h
  | none =>
    rw [tick, tickResult, hT]
    rw [tickChanges, tickResult, hT] at h
    by_cases hch : changesOf (tickOutcomes s now d) = []
    · rw [perCameraPhase_of_no_changes s now d gF gA hch]
    · rw [perCameraPhase_of_changes s now d gF gA hch] at h
      exact absurd h hch

/-- Draws where no roll hits and no NVR-wide failure fires. -/
def drawsNone : TickDraws :=
  { nvrFailRoll := false, nvrTargetIdx := 0, camHit := fun _ => false,
    camNvrStillDown := fun _ => false }

/-- C7 witness: a concrete no-op tick leaves the concrete state unchanged. -/
theorem c7_witness :
    tickChanges baseState 5 drawsNone gid gid = [] ∧
    tick baseState 5 drawsNone gid gid = baseState :=
  ⟨by decide, c7_noop_tick baseState 5 drawsNone gid gid (by decide)⟩

/-! ### C5 — per-camera rolls in an NVR-failure tick -/

/-- A second online camera under `N1` for the C5 state. -/
def camA : Camera := { cam1 with id := "a", name := "A" }

/-- An offline camera under a different NVR `N2`; its repair roll would hit. -/
def camB : Camera :=
  { id := "b", name := "B", location := "L2", nvrId := "N2", type := CameraType.SIMULATED,
    sourceUrl := none, isOnline := false, isRecording := false, statusChangedAt := 0,
    lastAnalysis := none, lastUpdate := 0 }

/-- A second NVR for the C5 state. -/
def nvr2 : NvrDevice := { nvr1 with id := "N2", name := "NVR Two" }

/-- Two NVRs: `N1` with an online camera, `N2` with an offline camera. -/
def stateC5 : AppState :=
  { cameras := [camA, camB], nvrs := [nvr1, nvr2], users := [], faults := [], alerts := [],
    liveCameraIds := [] }

/-- Draws where the NVR-failure roll fires targeting the first NVR id and
every per-camera roll would hit. -/
def drawsNvrFail : TickDraws :=
  { nvrFailRoll := true, nvrTargetIdx := 0, camHit := fun _ => true,
    camNvrStillDown := fun _ => false }

/-- C5 counterexample: in a tick whose NVR-failure branch fires for `N1`,
camera `b` (under `N2`, offline, with a repair roll that would hit) is
returned unchanged and no REPAIR transition is recorded — the tick returns
the cascaded camera array before any per-camera roll runs, so cameras not
belonging to the failed NVR do not undergo their roll that tick. -/
theorem c5_counterexample :
    (tick stateC5 9 drawsNvrFail gid gid).cameras =
      [{ camA with isOnline := false, isRecording := false, statusChangedAt := 9 }, camB] ∧
    tickChanges stateC5 9 drawsNvrFail gid gid =
      [{ type := ChangeType.NVR_FAILURE, camera := none, nvrId := some "N1", message := some "NVR Network Unreachable: N1" }] := by
  constructor <;> rfl

/-- C5 amended: when the NVR-failure branch fires for target `t`, the
tick's `changes` array is exactly the single NVR_FAILURE record (no camera
undergoes a repair/failure roll that tick), every camera not under `t` is
returned unchanged, and the fault and alert collections are untouched.
Per-camera rolls happen only in ticks whose NVR-failure branch does not
fire. -/
theorem c5_nvr_failure_tick_no_rolls (s : AppState) (now : Nat) (d : TickDraws)
    (gF gA : Nat → String) (t : String) (h : nvrFailTargetOf s d = some t) :
    tickChanges s now d gF gA =
      [{ type := ChangeType.NVR_FAILURE, camera := none, nvrId := some t, message := some ("NVR Network Unreachable: " ++ t) }] ∧
    (∀ c ∈ s.cameras, c.nvrId ≠ t → c ∈ (tick s now d gF gA).cameras) ∧
    (tick s now d gF gA).faults = s.faults ∧
    (tick s now d gF gA).alerts = s.alerts := by
  rw [tick, tickChanges, tickResult, h]
  refine ⟨rfl, ?_, rfl, rfl⟩
  intro c hc hne
  have heq : (fun c2 : Camera =>
      if c2.nvrId == t then
        { c2 with isOnline := false, isRecording := false, statusChangedAt := now }
      else c2) c = c := by
    have hb : (c.nvrId == t) = false := by simpa using hne
    simp [hb]
  exact heq ▸ List.mem_map_of_mem _ hc

/-- C5 witness: the amended theorem applied to the concrete two-NVR state. -/
theorem c5_witness :
    nvrFailTargetOf stateC5 drawsNvrFail = some "N1" ∧
    (tickChanges stateC5 9 drawsNvrFail gid gid =
        [{ type := ChangeType.NVR_FAILURE, camera := none, nvrId := some "N1", message := some ("NVR Network Unreachable: " ++ "N1") }] ∧
      (∀ c ∈ stateC5.cameras, c.nvrId ≠ "N1" → c ∈ (tick stateC5 9 drawsNvrFail gid gid).cameras) ∧
      (tick stateC5 9 drawsNvrFail gid gid).faults = stateC5.faults ∧
      (tick stateC5 9 drawsNvrFail gid gid).alerts = stateC5.alerts) :=
  ⟨by decide, c5_nvr_failure_tick_no_rolls stateC5 9 drawsNvrFail gid gid "N1" (by decide)⟩

/-! ### C6 — NVR failure cascade -/

/-- Second camera under `N1`. -/
def cam2 : Camera := { cam1 with id := "c2", name := "CAM-02" }

/-- Third camera under `N1`. -/
def cam3 : Camera := { cam1 with id := "c3", name := "CAM-03" }

/-- One NVR with three online cameras, no faults, no alerts. -/
def stateC6 : AppState :=
  { cameras := [cam1, cam2, cam3], nvrs := [nvr1], users := [], faults := [], alerts := [],
    liveCameraIds := [] }

/-- Draws where only the NVR-failure roll fires. -/
def drawsNvrOnly : TickDraws :=
  { nvrFailRoll := true, nvrTargetIdx := 0, camHit := fun _ => false,
    camNvrStillDown := fun _ => false }

/-- C6 code-bug evaluation: an NVR_FAILURE tick for `N1` (three online
cameras) marks all three cameras offline with recording cleared and
`statusChangedAt` stamped, and marks the NVR OFFLINE — but appends no
FaultRecord and no Alert: the tick's camera callback returns the cascaded
array before the fault/alert sync runs, leaving the NVR_FAILURE branches
of `updateFaults`/`updateAlerts` unreachable.  The claim's one-open-fault-
per-camera and one-CRITICAL-alert behavior is what that unreachable code
would have produced. -/
theorem c6_code_bug_eval :
    (tick stateC6 11 drawsNvrOnly gid gid).cameras =
      [{ cam1 with isOnline := false, isRecording := false, statusChangedAt := 11 }, { cam2 with isOnline := false, isRecording := false, statusChangedAt := 11 }, { cam3 with isOnline := false, isRecording := false, statusChangedAt := 11 }] ∧
    (tick stateC6 11 drawsNvrOnly gid gid).nvrs = [{ nvr1 with status := NvrStatus.OFFLINE }] ∧
    (tick stateC6 11 drawsNvrOnly gid gid).faults = [] ∧
    (tick stateC6 11 drawsNvrOnly gid gid).alerts = [] :=
  ⟨rfl, rfl, rfl, rfl⟩
